import Mathlib

/-!
Shallow embedding of the evidence-fusion pipeline of the
Criminal-Profiling-Using-OSINT repository.

The embedded code lives in `backend/app/correlation_engine.py`,
`backend/app/social_voice.py`, `backend/app/main_api.py` and
`backend/app/utils.py`.  Python floats are modelled as `ℚ`; Python's
`round(x, d)` (round-half-to-even on the decimal digit) is modelled by
`pyRound`; `datetime` values are modelled as integer seconds since an
epoch, so that `timedelta.days` becomes flooring integer division by
86400, exactly as in CPython.  Transcendental helpers that the engine
imports (`utils.haversine_distance`, `math.cos` inside `cos_deg`) are
kept as explicit function parameters of the embedding: every theorem
below holds for an arbitrary distance/cosine function, so in particular
for the real haversine and cosine.
-/

namespace OsintFusion

/-- CPython `round` to 0 digits: round half to even, as an integer. -/
def rndHalfEven (x : ℚ) : ℤ :=
  if x - ⌊x⌋ < 1/2 then ⌊x⌋
  else if x - ⌊x⌋ > 1/2 then ⌊x⌋ + 1
  else if 2 ∣ ⌊x⌋ then ⌊x⌋ else ⌊x⌋ + 1

/-- CPython `round(x, d)` on our rational model of floats. -/
def pyRound (x : ℚ) (d : ℕ) : ℚ :=
  (rndHalfEven (x * 10 ^ d) : ℚ) / 10 ^ d

/-- Decimal rendering of the fractional part used by `fmtQ`. -/
def padDigits (d : ℕ) (n : ℕ) : String :=
  let s := toString n
  String.mk (List.replicate (d - s.length) '0') ++ s

/-- Model of the Python format spec `:.df` applied to a float. -/
def fmtQ (d : ℕ) (x : ℚ) : String :=
  let r := rndHalfEven (x * 10 ^ d)
  let sign := if r < 0 then "-" else ""
  sign ++ toString (r.natAbs / 10 ^ d) ++ "." ++ padDigits d (r.natAbs % 10 ^ d)

-- ============== Data model (backend/app/api_models.py) ==============

/-- `api_models.InfrastructureNode` (the fields the engine reads). -/
structure InfrastructureNode where
  osm_id : ℤ
  node_type : String
  name : Option String
  latitude : ℚ
  longitude : ℚ
  tags : List (String × String)
  deriving DecidableEq

/-- Python `dict.get` over our association-list model of `tags`. -/
def tagsGet (tags : List (String × String)) (k : String) : Option String :=
  (tags.lookup k)

/-- A geo-temporal record: common shape of `GLADAlert`, `RADDAlert`
and `FireEvent` as consumed by the scorers (`latitude`, `longitude`,
a timestamp, and the Python class name used in detail rows). -/
structure GeoEvent where
  latitude : ℚ
  longitude : ℚ
  time : ℤ
  kind : String
  deriving DecidableEq

/-- `api_models.SentinelEvidence` (numeric fields as optional ℚ). -/
structure SentinelEvidence where
  ndvi : Option ℚ := none
  ndvi_change : Option ℚ := none
  nbr : Option ℚ := none
  nbr_change : Option ℚ := none
  burn_index : Option ℚ := none
  cloud_coverage : Option ℚ := none
  deriving DecidableEq

/-- `api_models.HansenStats` (the fields the engine reads). -/
structure HansenStats where
  total_loss_ha : ℚ
  loss_by_year : List (ℤ × ℚ) := []
  deriving DecidableEq

/-- `api_models.SentimentScore`. -/
structure SentimentScore where
  count : ℤ
  score : ℚ
  keywords : List String := []
  sample_titles : List String := []
  deriving DecidableEq

/-- `api_models.CombinedSentiment`. -/
structure CombinedSentiment where
  google : Option SentimentScore := none
  gdelt : Option SentimentScore := none
  reddit : Option SentimentScore := none
  final_score : ℚ
  confidence : ℚ
  dominant_narrative : Option String := none
  deriving DecidableEq

/-- `api_models.Company` (the fields the engine reads). -/
structure Company where
  name : String
  match_score : Option ℚ := none
  deriving DecidableEq

-- ============== Correlation parameters (correlation_engine.py) ==============

def MAX_PROXIMITY_DISTANCE_M : ℚ := 5000

def TEMPORAL_WINDOW_DAYS : ℤ := 14

def BURN_INDEX_THRESHOLD : ℚ := 0.3

/-- The `WEIGHTS` dict of `correlation_engine.py`. -/
def WEIGHTS (k : String) : ℚ :=
  if k = "spatial_proximity" then 0.25
  else if k = "temporal_correlation" then 0.20
  else if k = "sentinel_ndvi" then 0.15
  else if k = "sentinel_nbr" then 0.10
  else if k = "sentinel_burn" then 0.10
  else if k = "alert_density" then 0.10
  else if k = "sentiment_negative" then 0.10
  else 0

-- ============== Spatial proximity score ==============

/-- One proximity-detail dict row appended by
`calculate_spatial_proximity_score`. -/
structure ProximityDetail where
  infrastructure : String
  infrastructure_type : String
  distance_m : ℚ
  alert_type : String
  deriving DecidableEq

/-- Python `node.name or f"OSM:{node.osm_id}"` (empty string is falsy). -/
def nodeDisplayName (node : InfrastructureNode) : String :=
  match node.name with
  | some s => if s = "" then "OSM:" ++ toString node.osm_id else s
  | none => "OSM:" ++ toString node.osm_id

/-- The nested loop of `calculate_spatial_proximity_score`: one detail
row per (node, alert) pair within `max_distance` under the distance
function `dist` (standing for `utils.haversine_distance`). -/
def proximityDetails (dist : ℚ → ℚ → ℚ → ℚ → ℚ)
    (infrastructure : List InfrastructureNode) (alerts : List GeoEvent)
    (max_distance : ℚ) : List ProximityDetail :=
  infrastructure.flatMap (fun node =>
    alerts.filterMap (fun alert =>
      let d := dist node.latitude node.longitude alert.latitude alert.longitude
      if d ≤ max_distance then
        some { infrastructure := nodeDisplayName node,
               infrastructure_type := node.node_type,
               distance_m := pyRound d 1,
               alert_type := alert.kind }
      else none))

/-- The count→score mapping of `calculate_spatial_proximity_score`
("score based on number of close proximities, diminishing returns"). -/
def spatialCurve (close_count : ℕ) : ℚ :=
  if close_count = 0 then 0
  else if close_count < 5 then close_count * 0.15
  else if close_count < 10 then 0.6 + ((close_count : ℤ) - 5) * 0.05
  else min 1 (0.85 + ((close_count : ℤ) - 10) * 0.01)

/-- `correlation_engine.calculate_spatial_proximity_score`. -/
def calculate_spatial_proximity_score (dist : ℚ → ℚ → ℚ → ℚ → ℚ)
    (infrastructure : List InfrastructureNode) (alerts : List GeoEvent)
    (max_distance : ℚ := MAX_PROXIMITY_DISTANCE_M) :
    ℚ × List ProximityDetail :=
  if infrastructure = [] ∨ alerts = [] then (0, [])
  else
    let details := proximityDetails dist infrastructure alerts max_distance
    (spatialCurve details.length, details)

-- ============== Temporal correlation score ==============

/-- One correlation-detail dict row appended by
`calculate_temporal_correlation_score`. -/
structure TemporalDetail where
  fire_date : ℤ
  alert_date : ℤ
  days_apart : ℤ
  correlation_strength : ℚ
  deriving DecidableEq

/-- CPython `timedelta.days` of `t1 - t2` (seconds): flooring division. -/
def timedeltaDays (t1 t2 : ℤ) : ℤ := Int.fdiv (t1 - t2) 86400

/-- The nested loop of `calculate_temporal_correlation_score`. -/
def temporalMatches (fires alerts : List GeoEvent) (window_days : ℤ) :
    List TemporalDetail :=
  fires.flatMap (fun fire =>
    alerts.filterMap (fun alert =>
      let time_diff := |timedeltaDays fire.time alert.time|
      if time_diff ≤ window_days then
        some { fire_date := fire.time,
               alert_date := alert.time,
               days_apart := time_diff,
               correlation_strength :=
                 pyRound (1 - (time_diff : ℚ) / (window_days : ℚ)) 2 }
      else none))

/-- `correlation_engine.calculate_temporal_correlation_score`. -/
def calculate_temporal_correlation_score (fires : List GeoEvent)
    (deforestation_alerts : List GeoEvent)
    (window_days : ℤ := TEMPORAL_WINDOW_DAYS) : ℚ × List TemporalDetail :=
  if fires = [] ∨ deforestation_alerts = [] then (0, [])
  else
    let correlations := temporalMatches fires deforestation_alerts window_days
    if correlations = [] then (0, [])
    else
      let avg_strength :=
        (correlations.map (·.correlation_strength)).sum / correlations.length
      let count_bonus := min 0.3 ((correlations.length : ℚ) * 0.05)
      (min 1 (avg_strength + count_bonus), correlations)

-- ============== Sentinel scores ==============

/-- NDVI branch of `calculate_sentinel_scores` (before the outer
`min(1.0, ...)` that the source applies when storing). -/
def ndviRawScore (x : ℚ) : ℚ :=
  if x < 0.2 then 0.8 + (0.2 - x) * 0.5
  else if x < 0.4 then 0.4 + (0.4 - x) * 1.0
  else max 0 (0.4 - (x - 0.4) * 0.5)

/-- The NDVI sub-score as stored: `min(1.0, ndvi_score)`. -/
def ndviScore (x : ℚ) : ℚ := min 1 (ndviRawScore x)

/-- NBR branch of `calculate_sentinel_scores` (before `min(1.0, ...)`). -/
def nbrRawScore (x : ℚ) : ℚ :=
  if x < -0.1 then 0.6 + |x| * 0.8
  else if x < 0.1 then 0.3
  else 0

/-- The NBR sub-score as stored: `min(1.0, nbr_score)`. -/
def nbrScore (x : ℚ) : ℚ := min 1 (nbrRawScore x)

/-- Burn-index branch of `calculate_sentinel_scores`; the source stores
this value directly (the `min` sits inside the first branch only). -/
def burnScore (x : ℚ) : ℚ :=
  if x > BURN_INDEX_THRESHOLD then min 1 (x * 1.5)
  else if x > 0.15 then x * 2
  else 0

/-- The `{metric: (score, explanation)}` dict returned by
`calculate_sentinel_scores`. -/
structure SentinelScores where
  ndvi : ℚ × String
  nbr : ℚ × String
  burn : ℚ × String
  deriving DecidableEq

/-- `correlation_engine.calculate_sentinel_scores`. -/
def calculate_sentinel_scores (sentinel : Option SentinelEvidence) :
    SentinelScores :=
  match sentinel with
  | none =>
    { ndvi := (0, "No Sentinel data available"),
      nbr := (0, "No Sentinel data available"),
      burn := (0, "No Sentinel data available") }
  | some s =>
    let ndviEntry : ℚ × String :=
      match s.ndvi with
      | some x =>
        (ndviScore x,
          if x < 0.2 then
            s!"Very low NDVI ({fmtQ 2 x}) indicates severe vegetation loss"
          else if x < 0.4 then
            s!"Low NDVI ({fmtQ 2 x}) indicates vegetation stress/loss"
          else
            s!"NDVI ({fmtQ 2 x}) indicates vegetation present")
      | none => (0, "NDVI data not available")
    let nbrEntry : ℚ × String :=
      match s.nbr with
      | some x =>
        (nbrScore x,
          if x < -0.1 then
            s!"Negative NBR ({fmtQ 2 x}) indicates burn damage"
          else if x < 0.1 then
            s!"Low NBR ({fmtQ 2 x}) suggests possible damage"
          else
            s!"NBR ({fmtQ 2 x}) indicates healthy vegetation")
      | none => (0, "NBR data not available")
    let burnEntry : ℚ × String :=
      match s.burn_index with
      | some x =>
        (burnScore x,
          if x > BURN_INDEX_THRESHOLD then
            s!"High burn index ({fmtQ 2 x}) indicates active/recent burning"
          else if x > 0.15 then
            s!"Elevated burn index ({fmtQ 2 x})"
          else
            s!"Low burn index ({fmtQ 2 x})")
      | none => (0, "Burn index not available")
    { ndvi := ndviEntry, nbr := nbrEntry, burn := burnEntry }

-- ============== Alert density score ==============

/-- `correlation_engine.calculate_alert_density_score`; `cosd` stands
for the transcendental helper `cos_deg`. -/
def calculate_alert_density_score (cosd : ℚ → ℚ)
    (glad_alerts radd_alerts fires : List GeoEvent)
    (bbox : ℚ × ℚ × ℚ × ℚ) : ℚ × String :=
  let total_alerts := glad_alerts.length + radd_alerts.length + fires.length
  if total_alerts = 0 then (0, "No alerts detected in region")
  else
    let min_lon := bbox.1
    let min_lat := bbox.2.1
    let max_lon := bbox.2.2.1
    let max_lat := bbox.2.2.2
    let width_km := (max_lon - min_lon) * 111 * |cosd ((min_lat + max_lat) / 2)|
    let height_km := (max_lat - min_lat) * 111
    let area_sq_km := width_km * height_km
    if area_sq_km ≤ 0 then (0, "Invalid area")
    else
      let density := ((total_alerts : ℚ) / area_sq_km) * 100
      let (score, explanation) : ℚ × String :=
        if density > 50 then
          (1, s!"Very high alert density: {fmtQ 1 density} per 100 sq km")
        else if density > 20 then
          (0.7 + (density - 20) * 0.01,
            s!"High alert density: {fmtQ 1 density} per 100 sq km")
        else if density > 5 then
          (0.3 + (density - 5) * 0.027,
            s!"Moderate alert density: {fmtQ 1 density} per 100 sq km")
        else
          (density * 0.06,
            s!"Low alert density: {fmtQ 1 density} per 100 sq km")
      (min 1 score, explanation)

-- ============== Sentiment score ==============

/-- `correlation_engine.calculate_sentiment_score`. -/
def calculate_sentiment_score (sentiment : Option CombinedSentiment) :
    ℚ × String :=
  match sentiment with
  | none => (0, "No sentiment data available")
  | some s =>
    let (score, explanation) : ℚ × String :=
      if s.final_score < -0.3 then
        (0.8 + |s.final_score + 0.3| * 0.3,
          s!"Strongly negative media sentiment ({fmtQ 2 s.final_score})")
      else if s.final_score < 0 then
        (0.4 + |s.final_score| * 1.3,
          s!"Negative media sentiment ({fmtQ 2 s.final_score})")
      else if s.final_score < 0.2 then
        (0.2, s!"Neutral media sentiment ({fmtQ 2 s.final_score})")
      else
        (0, s!"Positive media sentiment ({fmtQ 2 s.final_score})")
    let score := score * s.confidence
    let explanation :=
      match s.dominant_narrative with
      | some narrative => explanation ++ s!"; dominant theme: {narrative}"
      | none => explanation
    (min 1 score, explanation)

-- ============== Evidence chain builder ==============

/-- A value in the heterogeneous `supporting_data` dict. -/
inductive SDVal where
  | int (n : ℤ)
  | rat (x : ℚ)
  | str (s : String)
  | null
  deriving DecidableEq

/-- `api_models.EvidenceLink`. -/
structure EvidenceLink where
  evidence_type : String
  description : String
  weight : ℚ
  supporting_data : List (String × SDVal)
  deriving DecidableEq

/-- `api_models.EvidenceChain`. -/
structure EvidenceChain where
  suspect : Company
  links : List EvidenceLink
  total_weight : ℚ
  summary : String
  deriving DecidableEq

/-- Python `min(details, key=lambda x: x["distance_m"])`: first
minimum wins ties. -/
def closestDetail (details : List ProximityDetail) : Option ProximityDetail :=
  match details with
  | [] => none
  | d :: ds =>
    some (ds.foldl (fun best x =>
      if x.distance_m < best.distance_m then x else best) d)

/-- `correlation_engine.build_evidence_chain`. -/
def build_evidence_chain (suspect : Company)
    (spatial_score : ℚ) (spatial_details : List ProximityDetail)
    (temporal_score : ℚ) (temporal_details : List TemporalDetail)
    (sentinel_scores : SentinelScores)
    (density_score : ℚ) (density_explanation : String)
    (sentiment_score : ℚ) (sentiment_explanation : String) : EvidenceChain :=
  let spatialLinks : List EvidenceLink :=
    if spatial_score > 0 then
      let closest := closestDetail spatial_details
      [{ evidence_type := "spatial_proximity",
         description := s!"Infrastructure within {MAX_PROXIMITY_DISTANCE_M.num}m of {spatial_details.length} damage points",
         weight := spatial_score * WEIGHTS "spatial_proximity",
         supporting_data :=
           [("proximity_count", SDVal.int spatial_details.length),
            ("closest_distance_m",
              match closest with
              | some c => SDVal.rat c.distance_m
              | none => SDVal.null),
            ("closest_type",
              match closest with
              | some c => SDVal.str c.infrastructure_type
              | none => SDVal.null)] }]
    else []
  let temporalLinks : List EvidenceLink :=
    if temporal_score > 0 then
      [{ evidence_type := "temporal_correlation",
         description := s!"Fire events correlated with deforestation alerts ({temporal_details.length} matches within {TEMPORAL_WINDOW_DAYS} days)",
         weight := temporal_score * WEIGHTS "temporal_correlation",
         supporting_data :=
           [("correlation_count", SDVal.int temporal_details.length),
            ("avg_days_apart", SDVal.rat
              (if temporal_details = [] then 0
               else ((temporal_details.map (·.days_apart)).sum : ℚ) /
                 temporal_details.length))] }]
    else []
  let ndvi_score := (sentinel_scores.ndvi).1
  let ndviLinks : List EvidenceLink :=
    if ndvi_score > 0 then
      [{ evidence_type := "sentinel_ndvi",
         description := (sentinel_scores.ndvi).2,
         weight := ndvi_score * WEIGHTS "sentinel_ndvi",
         supporting_data := [("score", SDVal.rat ndvi_score)] }]
    else []
  let nbr_score := (sentinel_scores.nbr).1
  let nbrLinks : List EvidenceLink :=
    if nbr_score > 0 then
      [{ evidence_type := "sentinel_nbr",
         description := (sentinel_scores.nbr).2,
         weight := nbr_score * WEIGHTS "sentinel_nbr",
         supporting_data := [("score", SDVal.rat nbr_score)] }]
    else []
  let burn_score := (sentinel_scores.burn).1
  let burnLinks : List EvidenceLink :=
    if burn_score > 0 then
      [{ evidence_type := "sentinel_burn",
         description := (sentinel_scores.burn).2,
         weight := burn_score * WEIGHTS "sentinel_burn",
         supporting_data := [("score", SDVal.rat burn_score)] }]
    else []
  let densityLinks : List EvidenceLink :=
    if density_score > 0 then
      [{ evidence_type := "alert_density",
         description := density_explanation,
         weight := density_score * WEIGHTS "alert_density",
         supporting_data := [("score", SDVal.rat density_score)] }]
    else []
  let sentimentLinks : List EvidenceLink :=
    if sentiment_score > 0 then
      [{ evidence_type := "sentiment_negative",
         description := sentiment_explanation,
         weight := sentiment_score * WEIGHTS "sentiment_negative",
         supporting_data := [("score", SDVal.rat sentiment_score)] }]
    else []
  let links := spatialLinks ++ temporalLinks ++ ndviLinks ++ nbrLinks ++
    burnLinks ++ densityLinks ++ sentimentLinks
  let total_weight := (links.map (·.weight)).sum
  let summary_parts : List String :=
    (if spatial_score > 0.5 then ["strong spatial correlation with damage sites"] else []) ++
    (if temporal_score > 0.5 then ["temporal pattern of fires preceding deforestation"] else []) ++
    (if ndvi_score > 0.5 then ["satellite imagery confirms vegetation loss"] else []) ++
    (if sentiment_score > 0.5 then ["negative media coverage"] else [])
  let joined_parts := String.intercalate ", " summary_parts
  let summary :=
    if summary_parts ≠ [] then
      s!"{suspect.name}: Evidence shows {joined_parts}."
    else
      s!"{suspect.name}: Limited evidence found for direct involvement."
  { suspect := suspect,
    links := links,
    total_weight := pyRound total_weight 3,
    summary := summary }

-- ============== correlate_events ==============

/-- The suspect-matching test of the loop body in `correlate_events`:
`n.name == suspect.name or n.tags.get("operator") == suspect.name or
n.tags.get("company") == suspect.name` (Python `None == str` is false,
so a missing name/tag never matches). -/
def nodeMatchesSuspect (suspect : Company) (n : InfrastructureNode) : Bool :=
  n.name = some suspect.name ∨
    tagsGet n.tags "operator" = some suspect.name ∨
    tagsGet n.tags "company" = some suspect.name

/-- The spatial score and details the loop passes to
`build_evidence_chain` for one suspect. -/
def suspectSpatial (dist : ℚ → ℚ → ℚ → ℚ → ℚ)
    (infrastructure : List InfrastructureNode) (damage : List GeoEvent)
    (spatial_score : ℚ) (spatial_details : List ProximityDetail)
    (suspect : Company) : ℚ × List ProximityDetail :=
  let suspect_infra := infrastructure.filter (nodeMatchesSuspect suspect)
  if suspect_infra ≠ [] then
    calculate_spatial_proximity_score dist suspect_infra damage
  else
    (spatial_score * 0.5, spatial_details)

/-- Stable insertion used to model CPython's stable
`list.sort(key=..., reverse=True)`: a chain moves ahead only of chains
with strictly smaller `total_weight`, so equal weights keep their
original relative order (Timsort with `reverse=True` is documented to
preserve the order of equal elements). -/
def insertChainDesc (c : EvidenceChain) : List EvidenceChain → List EvidenceChain
  | [] => [c]
  | x :: xs =>
    if x.total_weight < c.total_weight then c :: x :: xs
    else x :: insertChainDesc c xs

/-- Stable sort by descending `total_weight`; any stable sort computes
the same list as CPython's, so insertion sort is a faithful model. -/
def sortChainsDesc (l : List EvidenceChain) : List EvidenceChain :=
  l.foldl (fun acc c => insertChainDesc c acc) []

/-- The `for suspect in suspects` loop of `correlate_events`, before
the sort. -/
def evidenceChainsFor (dist : ℚ → ℚ → ℚ → ℚ → ℚ)
    (infrastructure : List InfrastructureNode) (damage : List GeoEvent)
    (spatial_score : ℚ) (spatial_details : List ProximityDetail)
    (temporal_score : ℚ) (temporal_details : List TemporalDetail)
    (sentinel_scores : SentinelScores)
    (density_score : ℚ) (density_explanation : String)
    (sentiment_score : ℚ) (sentiment_explanation : String)
    (suspects : List Company) : List EvidenceChain :=
  suspects.foldl (fun acc suspect =>
    let ss := suspectSpatial dist infrastructure damage
      spatial_score spatial_details suspect
    acc ++ [build_evidence_chain suspect ss.1 ss.2
      temporal_score temporal_details sentinel_scores
      density_score density_explanation
      sentiment_score sentiment_explanation]) []

/-- Python truthiness of an optional float: `None` and `0.0` are falsy. -/
def truthyOptQ : Option ℚ → Bool
  | none => false
  | some x => x ≠ 0

/-- The `if hansen and hansen.total_loss_ha > 0` presence bonus of
`correlate_events`. -/
def hansenBonus : Option HansenStats → ℚ
  | some h => if h.total_loss_ha > 0 then 10 else 0
  | none => 0

/-- `correlation_engine.correlate_events` (an `async def` whose body
performs no awaiting I/O: it is a pure function of its arguments and of
the two transcendental helpers `dist`/`cosd`).  Returns the sorted
evidence chains and the overall confidence score.  The source also
increments an `evidence_sources` counter alongside each presence bonus;
that counter is never read afterwards, so it is omitted here. -/
def correlate_events (dist : ℚ → ℚ → ℚ → ℚ → ℚ) (cosd : ℚ → ℚ)
    (aoi : ℚ × ℚ × ℚ × ℚ)
    (hansen : Option HansenStats)
    (glad_alerts radd_alerts fires : List GeoEvent)
    (sentinel : Option SentinelEvidence)
    (infrastructure : List InfrastructureNode)
    (suspects : List Company)
    (sentiment : Option CombinedSentiment) :
    List EvidenceChain × ℚ :=
  let all_deforestation := glad_alerts ++ radd_alerts
  let sp := calculate_spatial_proximity_score dist infrastructure
    (all_deforestation ++ fires)
  let tc := calculate_temporal_correlation_score fires all_deforestation
  let sentinel_scores := calculate_sentinel_scores sentinel
  let dens := calculate_alert_density_score cosd glad_alerts radd_alerts fires aoi
  let sent := calculate_sentiment_score sentiment
  let evidence_chains := evidenceChainsFor dist infrastructure
    (all_deforestation ++ fires) sp.1 sp.2 tc.1 tc.2 sentinel_scores
    dens.1 dens.2 sent.1 sent.2 suspects
  let sorted_chains := sortChainsDesc evidence_chains
  let base_confidence : ℚ :=
    (if glad_alerts ≠ [] ∨ radd_alerts ≠ [] then 15 else 0) +
    (if fires ≠ [] then 10 else 0) +
    (if sentinel.isSome ∧
        (truthyOptQ ((sentinel.map (·.ndvi)).join) ∨
         truthyOptQ ((sentinel.map (·.nbr)).join)) then 15 else 0) +
    hansenBonus hansen +
    (if infrastructure ≠ [] then 10 else 0) +
    (if sentiment.isSome then 5 else 0) +
    sp.1 * 15 + tc.1 * 10 + dens.1 * 10 +
    (sentinel_scores.ndvi).1 * 5 + (sentinel_scores.nbr).1 * 5 +
    (sentinel_scores.burn).1 * 5
  let confidence_score := min 100 base_confidence
  (sorted_chains, pyRound confidence_score 1)

-- ============== Combined sentiment (social_voice.py) ==============

/-- Unique elements in order of first occurrence (iteration order of a
CPython `Counter` built from the list). -/
def uniqueInOrder : List String → List String
  | [] => []
  | x :: xs => x :: uniqueInOrder (xs.filter (fun y => y ≠ x))
termination_by l => l.length
decreasing_by
  simp only [List.length_cons]
  exact Nat.lt_succ_of_le (List.length_filter_le _ _)

/-- `Counter(l).most_common(1)[0][0]`: a keyword of maximal
multiplicity, the earliest-first-occurring one on ties. -/
def mostCommonKeyword (l : List String) : Option String :=
  match uniqueInOrder l with
  | [] => none
  | k :: ks =>
    some (ks.foldl (fun best k2 =>
      if l.count k2 > l.count best then k2 else best) k)

/-- The per-source weight table of `compute_combined_sentiment`. -/
def sentimentSourceWeight (k : String) : ℚ :=
  if k = "google" then 0.5
  else if k = "gdelt" then 0.3
  else if k = "reddit" then 0.2
  else 0

/-- Python `score and score.count > 0` for an optional model object
(a present pydantic model is always truthy). -/
def sentimentPresent : Option SentimentScore → Bool
  | none => false
  | some s => s.count > 0

/-- `social_voice.compute_combined_sentiment` (an `async def` with a
pure body). -/
def compute_combined_sentiment (google gdelt reddit : Option SentimentScore) :
    CombinedSentiment :=
  let sources : List (String × Option SentimentScore) :=
    [("google", google), ("gdelt", gdelt), ("reddit", reddit)]
  let present := sources.filter (fun p => sentimentPresent p.2)
  let weighted_sum := (present.map (fun p =>
    (p.2.map (·.score)).getD 0 * sentimentSourceWeight p.1)).sum
  let total_weight := (present.map (fun p => sentimentSourceWeight p.1)).sum
  let total_count := (present.map (fun p => (p.2.map (·.count)).getD 0)).sum
  let final_score := if total_weight > 0 then weighted_sum / total_weight else 0
  let source_count := present.length
  let sample_confidence := min 1 ((total_count : ℚ) / 50)
  let source_confidence := (source_count : ℚ) / 3
  let confidence := sample_confidence * 0.6 + source_confidence * 0.4
  let all_keywords := (sources.filterMap (·.2)).flatMap (·.keywords)
  let dominant := mostCommonKeyword all_keywords
  { google := google, gdelt := gdelt, reddit := reddit,
    final_score := pyRound final_score 3,
    confidence := pyRound confidence 3,
    dominant_narrative := dominant }

-- ============== Orchestrator (main_api.get_dossier) ==============

/-- `api_models.SourceError` (timestamp as integer seconds). -/
structure SourceError where
  source : String
  error_type : String
  message : String
  retryable : Bool
  timestamp : ℤ
  deriving DecidableEq

/-- `utils.create_source_error`: wraps an exception (type name and
message) into a `SourceError`, truncating the message to 500 chars. -/
def create_source_error (source : String) (exnType msg : String)
    (retryable : Bool) (now : ℤ) : SourceError :=
  { source := source, error_type := exnType, message := msg.take 500,
    retryable := retryable, timestamp := now }

/-- `api_models.CoverageNote`. -/
structure CoverageNote where
  dataset : String
  status : String
  reason : Option String
  deriving DecidableEq

/-- Outcome of one Phase-1 collaborator task under
`asyncio.gather(..., return_exceptions=True)`: either the task raised
(the exception value is returned) or it returned its result dict with
keys `data` / `error` / `skipped` / `skip_reason`. -/
inductive FetchOutcome (α : Type) where
  | raised (exnType msg : String)
  | returned (data : Option α) (error : Option String) (skipped : Bool)
      (skipReason : Option String)

/-- Python truthiness of `result.get("error")` (absent or empty string
is falsy). -/
def errTruthy : Option String → Bool
  | none => false
  | some s => s ≠ ""

/-- The `get_dossier` processing branch for an optional-payload source
with no geographic-skip branch (`hansen_gfc`, `sentinel_hub`). -/
def processOptional (source : String) (o : FetchOutcome α) (now : ℤ) :
    Option α × List SourceError :=
  match o with
  | .raised t m => (none, [create_source_error source t m true now])
  | .returned data error _ _ =>
    if errTruthy error then
      (none, [{ source := source, error_type := "FetchError",
                message := error.getD "", retryable := true, timestamp := now }])
    else (data, [])

/-- The `get_dossier` processing branch for a list-payload source with
no geographic-skip branch (`firms`, `overpass`); `data or []`. -/
def processList (source : String) (o : FetchOutcome (List α)) (now : ℤ) :
    List α × List SourceError :=
  match o with
  | .raised t m => ([], [create_source_error source t m true now])
  | .returned data error _ _ =>
    if errTruthy error then
      ([], [{ source := source, error_type := "FetchError",
              message := error.getD "", retryable := true, timestamp := now }])
    else (data.getD [], [])

/-- The `get_dossier` processing branch for the skippable alert sources
(`gfw_glad`, `gfw_radd`): exception, then skip, then error, then data. -/
def processSkippable (source : String) (o : FetchOutcome (List α)) (now : ℤ) :
    List α × List SourceError × List CoverageNote :=
  match o with
  | .raised t m => ([], [create_source_error source t m true now], [])
  | .returned data error skipped skipReason =>
    if skipped then
      ([], [], [{ dataset := source, status := "skipped", reason := skipReason }])
    else if errTruthy error then
      ([], [{ source := source, error_type := "FetchError",
              message := error.getD "", retryable := true, timestamp := now }], [])
    else (data.getD [], [], [])

/-- Outcome of Phase-2 company enrichment
(`enrich_infrastructure_companies` inside `try/except`). -/
inductive EnrichOutcome where
  | raised (exnType msg : String)
  | ok (companies : List Company)

/-- Outcome of Phase-2 sentiment fetching (`fetch_all_sentiment` inside
`try/except`; on success it returns a combined sentiment plus the
per-sub-source errors that are extended onto `source_errors`). -/
inductive SentimentOutcome where
  | raised (exnType msg : String)
  | ok (combined : CombinedSentiment) (errs : List SourceError)

/-- `api_models.Dossier` (the fields `get_dossier` assembles; datetimes
as integer seconds). -/
structure Dossier where
  region : Option String
  bbox : ℚ × ℚ × ℚ × ℚ
  analysis_period_start : ℤ
  analysis_period_end : ℤ
  hansen : Option HansenStats
  gfw_glad : List GeoEvent
  gfw_radd : List GeoEvent
  firms : List GeoEvent
  sentinel : Option SentinelEvidence
  nearby_infra : List InfrastructureNode
  suspects : List Company
  sentiment : Option CombinedSentiment
  evidence_chain : List EvidenceChain
  confidence_score : ℚ
  source_errors : List SourceError
  coverage_notes : List CoverageNote

/-- The body of `main_api.get_dossier` after input validation: turns
the Phase-1/2 task outcomes into signals plus `SourceError` /
`CoverageNote` entries, runs Phase-3 correlation, and assembles the
`Dossier`.  Gleif enrichment is only attempted when infrastructure is
non-empty, exactly as in the source. -/
def assembleDossier (dist : ℚ → ℚ → ℚ → ℚ → ℚ) (cosd : ℚ → ℚ)
    (region : Option String) (aoi : ℚ × ℚ × ℚ × ℚ) (start_dt end_dt : ℤ)
    (hansenO : FetchOutcome HansenStats)
    (firmsO : FetchOutcome (List GeoEvent))
    (gladO raddO : FetchOutcome (List GeoEvent))
    (sentinelO : FetchOutcome SentinelEvidence)
    (infraO : FetchOutcome (List InfrastructureNode))
    (enrichO : EnrichOutcome) (sentO : SentimentOutcome) (now : ℤ) : Dossier :=
  let ph := processOptional "hansen_gfc" hansenO now
  let pf := processList "firms" firmsO now
  let pg := processSkippable "gfw_glad" gladO now
  let pr := processSkippable "gfw_radd" raddO now
  let ps := processOptional "sentinel_hub" sentinelO now
  let pi := processList "overpass" infraO now
  let pe : List Company × List SourceError :=
    if pi.1 ≠ [] then
      match enrichO with
      | .raised t m => ([], [create_source_error "gleif" t m true now])
      | .ok cs => (cs, [])
    else ([], [])
  let pm : Option CombinedSentiment × List SourceError :=
    match sentO with
    | .raised t m => (none, [create_source_error "sentiment" t m true now])
    | .ok c errs => (some c, errs)
  let corr := correlate_events dist cosd aoi ph.1 pg.1 pr.1 pf.1 ps.1 pi.1
    pe.1 pm.1
  { region := region, bbox := aoi,
    analysis_period_start := start_dt, analysis_period_end := end_dt,
    hansen := ph.1, gfw_glad := pg.1, gfw_radd := pr.1, firms := pf.1,
    sentinel := ps.1, nearby_infra := pi.1, suspects := pe.1,
    sentiment := pm.1, evidence_chain := corr.1, confidence_score := corr.2,
    source_errors := ph.2 ++ pf.2 ++ pg.2.1 ++ pr.2.1 ++ ps.2 ++ pi.2 ++
      pe.2 ++ pm.2,
    coverage_notes := pg.2.2 ++ pr.2.2 }

/-- `main_api.get_dossier`: fails fast (HTTP 400) when the caller's AOI
cannot be resolved (`resolve_bbox` raising is modelled by the `Except`
argument); otherwise always assembles a `Dossier` from whatever the
collaborators produced. -/
def get_dossier (dist : ℚ → ℚ → ℚ → ℚ → ℚ) (cosd : ℚ → ℚ)
    (aoiRes : Except String (ℚ × ℚ × ℚ × ℚ))
    (region : Option String) (start_dt end_dt : ℤ)
    (hansenO : FetchOutcome HansenStats)
    (firmsO : FetchOutcome (List GeoEvent))
    (gladO raddO : FetchOutcome (List GeoEvent))
    (sentinelO : FetchOutcome SentinelEvidence)
    (infraO : FetchOutcome (List InfrastructureNode))
    (enrichO : EnrichOutcome) (sentO : SentimentOutcome) (now : ℤ) :
    Except String Dossier :=
  aoiRes.map (fun aoi => assembleDossier dist cosd region aoi start_dt end_dt
    hansenO firmsO gladO raddO sentinelO infraO enrichO sentO now)

-- ============== Helper lemmas ==============

lemma rndHalfEven_nonneg {x : ℚ} (h : 0 ≤ x) : 0 ≤ rndHalfEven x := by
  unfold rndHalfEven
  have h0 : (0 : ℤ) ≤ ⌊x⌋ := Int.le_floor.mpr (by exact_mod_cast h)
  split_ifs <;> omega

lemma rndHalfEven_le {x : ℚ} {m : ℤ} (h : x ≤ m) : rndHalfEven x ≤ m := by
  unfold rndHalfEven
  have h0 : ⌊x⌋ ≤ m := by
    calc ⌊x⌋ ≤ ⌊(m : ℚ)⌋ := Int.floor_le_floor h
    _ = m := Int.floor_intCast m
  have hfl : (⌊x⌋ : ℚ) ≤ x := Int.floor_le x
  split_ifs with h1 h2 h3
  · exact h0
  · -- the fractional part exceeds 1/2, so ⌊x⌋ < x ≤ m, hence ⌊x⌋ < m
    have hq : (⌊x⌋ : ℚ) < (m : ℚ) := by linarith
    have : ⌊x⌋ < m := by exact_mod_cast hq
    omega
  · exact h0
  · have hq : (⌊x⌋ : ℚ) < (m : ℚ) := by linarith
    have : ⌊x⌋ < m := by exact_mod_cast hq
    omega

lemma pyRound_nonneg {x : ℚ} (d : ℕ) (h : 0 ≤ x) : 0 ≤ pyRound x d := by
  unfold pyRound
  have hp : (0 : ℚ) < 10 ^ d := by positivity
  have := rndHalfEven_nonneg (x := x * 10 ^ d) (by positivity)
  have : (0 : ℚ) ≤ (rndHalfEven (x * 10 ^ d) : ℚ) := by exact_mod_cast this
  positivity

lemma pyRound_le {x : ℚ} {m : ℤ} (d : ℕ) (h : x ≤ m) : pyRound x d ≤ m := by
  unfold pyRound
  have hp : (0 : ℚ) < 10 ^ d := by positivity
  have hb : x * 10 ^ d ≤ ((m * 10 ^ d : ℤ) : ℚ) := by
    push_cast
    exact mul_le_mul_of_nonneg_right h (le_of_lt hp)
  have := rndHalfEven_le hb
  have hc : (rndHalfEven (x * 10 ^ d) : ℚ) ≤ ((m * 10 ^ d : ℤ) : ℚ) := by
    exact_mod_cast this
  rw [div_le_iff₀ hp]
  calc (rndHalfEven (x * 10 ^ d) : ℚ) ≤ ((m * 10 ^ d : ℤ) : ℚ) := hc
  _ = (m : ℚ) * 10 ^ d := by push_cast; ring

-- ===== Bounds of the individual scorers =====

lemma spatialCurve_bounds (n : ℕ) : 0 ≤ spatialCurve n ∧ spatialCurve n ≤ 1 := by
  unfold spatialCurve
  split_ifs with h1 h2 h3
  · norm_num
  · have h4 : (n : ℚ) ≤ 4 := by exact_mod_cast Nat.le_of_lt_succ h2
    constructor
    · positivity
    · nlinarith
  · have h5 : (5 : ℚ) ≤ ((n : ℤ) : ℚ) := by
      have := Nat.not_lt.mp h2
      push_cast; exact_mod_cast this
    have h9 : ((n : ℤ) : ℚ) ≤ 9 := by
      have := Nat.le_of_lt_succ h3
      push_cast; exact_mod_cast this
    constructor <;> nlinarith
  · have h10 : (10 : ℚ) ≤ ((n : ℤ) : ℚ) := by
      have := Nat.not_lt.mp h3
      push_cast; exact_mod_cast this
    exact ⟨le_min (by norm_num) (by nlinarith), min_le_left 1 _⟩

lemma spatial_score_bounds (dist : ℚ → ℚ → ℚ → ℚ → ℚ)
    (infrastructure : List InfrastructureNode) (alerts : List GeoEvent)
    (max_distance : ℚ) :
    0 ≤ (calculate_spatial_proximity_score dist infrastructure alerts
      max_distance).1 ∧
    (calculate_spatial_proximity_score dist infrastructure alerts
      max_distance).1 ≤ 1 := by
  unfold calculate_spatial_proximity_score
  split_ifs with h1
  · exact ⟨le_refl 0, by norm_num⟩
  · exact spatialCurve_bounds _

lemma temporal_strength_bounds {fires alerts : List GeoEvent} {w : ℤ}
    {td : TemporalDetail} (h : td ∈ temporalMatches fires alerts w) :
    0 ≤ td.correlation_strength ∧ td.correlation_strength ≤ 1 := by
  unfold temporalMatches at h
  rw [List.mem_flatMap] at h
  obtain ⟨fire, _, hmem⟩ := h
  rw [List.mem_filterMap] at hmem
  obtain ⟨alert, _, heq⟩ := hmem
  dsimp only at heq
  split_ifs at heq with hc
  · have h' := Option.some.inj heq
    subst h'
    dsimp only
    set dd := |timedeltaDays fire.time alert.time| with hdd
    have hdnn : (0 : ℤ) ≤ dd := abs_nonneg _
    have hq : 0 ≤ 1 - (dd : ℚ) / (w : ℚ) ∧ 1 - (dd : ℚ) / (w : ℚ) ≤ 1 := by
      rcases lt_trichotomy w 0 with hw | hw | hw
      · omega
      · rw [hw]; norm_num
      · have hwq : (0 : ℚ) < (w : ℚ) := by exact_mod_cast hw
        constructor
        · have hle : (dd : ℚ) ≤ (w : ℚ) := by exact_mod_cast hc
          have := div_le_one_of_le₀ hle (le_of_lt hwq)
          linarith
        · have : (0 : ℚ) ≤ (dd : ℚ) / (w : ℚ) := by positivity
          linarith
    constructor
    · exact pyRound_nonneg 2 hq.1
    · have := pyRound_le (x := 1 - (dd : ℚ) / (w : ℚ)) (m := 1) 2 (by
        exact_mod_cast hq.2)
      exact_mod_cast this

lemma temporal_score_bounds (fires alerts : List GeoEvent) (w : ℤ) :
    0 ≤ (calculate_temporal_correlation_score fires alerts w).1 ∧
    (calculate_temporal_correlation_score fires alerts w).1 ≤ 1 := by
  unfold calculate_temporal_correlation_score
  by_cases h1 : fires = [] ∨ alerts = []
  · rw [if_pos h1]; exact ⟨le_refl 0, by norm_num⟩
  · rw [if_neg h1]
    dsimp only
    by_cases h2 : temporalMatches fires alerts w = []
    · rw [if_pos h2]; exact ⟨le_refl 0, by norm_num⟩
    · rw [if_neg h2]
      dsimp only
      refine ⟨le_min (by norm_num) ?_, min_le_left 1 _⟩
      set ms := temporalMatches fires alerts w with hms
      have hsum : 0 ≤ (ms.map (·.correlation_strength)).sum := by
        apply List.sum_nonneg
        intro x hx
        rw [List.mem_map] at hx
        obtain ⟨td, htd, hx⟩ := hx
        rw [← hx]
        exact (temporal_strength_bounds htd).1
      have hb : (0 : ℚ) ≤ min 0.3 ((ms.length : ℚ) * 0.05) :=
        le_min (by norm_num) (by positivity)
      positivity

lemma ndviScore_bounds (x : ℚ) : 0 ≤ ndviScore x ∧ ndviScore x ≤ 1 := by
  unfold ndviScore ndviRawScore
  refine ⟨le_min (by norm_num) ?_, min_le_left 1 _⟩
  split_ifs with h1 h2
  · nlinarith
  · nlinarith
  · positivity

lemma nbrScore_bounds (x : ℚ) : 0 ≤ nbrScore x ∧ nbrScore x ≤ 1 := by
  unfold nbrScore nbrRawScore
  refine ⟨le_min (by norm_num) ?_, min_le_left 1 _⟩
  split_ifs with h1 h2
  · positivity
  · norm_num
  · norm_num

lemma burnScore_bounds (x : ℚ) : 0 ≤ burnScore x ∧ burnScore x ≤ 1 := by
  unfold burnScore BURN_INDEX_THRESHOLD
  split_ifs with h1 h2
  · exact ⟨le_min (by norm_num) (by nlinarith), min_le_left 1 _⟩
  · constructor <;> nlinarith
  · norm_num

lemma sentinel_scores_bounds (sentinel : Option SentinelEvidence) :
    (0 ≤ (calculate_sentinel_scores sentinel).ndvi.1 ∧
      (calculate_sentinel_scores sentinel).ndvi.1 ≤ 1) ∧
    (0 ≤ (calculate_sentinel_scores sentinel).nbr.1 ∧
      (calculate_sentinel_scores sentinel).nbr.1 ≤ 1) ∧
    (0 ≤ (calculate_sentinel_scores sentinel).burn.1 ∧
      (calculate_sentinel_scores sentinel).burn.1 ≤ 1) := by
  unfold calculate_sentinel_scores
  match sentinel with
  | none => norm_num
  | some s =>
    dsimp only
    refine ⟨?_, ?_, ?_⟩
    · rcases hx : s.ndvi with _ | x
      · norm_num
      · simpa using ndviScore_bounds x
    · rcases hx : s.nbr with _ | x
      · norm_num
      · simpa using nbrScore_bounds x
    · rcases hx : s.burn_index with _ | x
      · norm_num
      · simpa using burnScore_bounds x

lemma density_score_bounds (cosd : ℚ → ℚ)
    (glad radd fires : List GeoEvent) (bbox : ℚ × ℚ × ℚ × ℚ) :
    0 ≤ (calculate_alert_density_score cosd glad radd fires bbox).1 ∧
    (calculate_alert_density_score cosd glad radd fires bbox).1 ≤ 1 := by
  unfold calculate_alert_density_score
  dsimp only
  split_ifs with h1 h2 h3 h4 h5
  · exact ⟨le_refl 0, by norm_num⟩
  · exact ⟨le_refl 0, by norm_num⟩
  · exact ⟨le_min (by norm_num) (by norm_num), min_le_left 1 _⟩
  · exact ⟨le_min (by norm_num) (by nlinarith), min_le_left 1 _⟩
  · exact ⟨le_min (by norm_num) (by nlinarith), min_le_left 1 _⟩
  · refine ⟨le_min (by norm_num) ?_, min_le_left 1 _⟩
    have ha : ¬ _ ≤ (0 : ℚ) := h2
    push_neg at ha
    have hn : (0 : ℚ) <
        ((glad.length + radd.length + fires.length : ℕ) : ℚ) := by
      have : glad.length + radd.length + fires.length ≠ 0 := h1
      have : 0 < glad.length + radd.length + fires.length := Nat.pos_of_ne_zero this
      exact_mod_cast this
    positivity

lemma hansenBonus_bounds (h : Option HansenStats) :
    0 ≤ hansenBonus h ∧ hansenBonus h ≤ 10 := by
  cases h
  · simp [hansenBonus]
  · simp only [hansenBonus]
    split_ifs <;> norm_num

lemma pyRound_le_one (y : ℚ) (d : ℕ) (hy : y ≤ 1) : pyRound y d ≤ 1 := by
  have h := pyRound_le (m := 1) d (by exact_mod_cast hy)
  exact_mod_cast h

lemma pyRound_min100_le (x : ℚ) : pyRound (min 100 x) 1 ≤ 100 := by
  have hle : min (100 : ℚ) x ≤ ((100 : ℤ) : ℚ) := by
    push_cast
    exact min_le_left _ _
  have := pyRound_le (m := 100) 1 hle
  exact_mod_cast this

-- ============== C1 ==============

/-- C1: for every evidence bundle (any alerts, fires, imagery signal,
forest-loss stats, infrastructure, sentiment, and suspects — and any
distance/cosine helper), the overall confidence score returned by
`correlate_events` lies in [0, 100]; the `min 100` cap applies even when
every presence bonus applies and every category score is 1, where the
uncapped base would be 115. -/
theorem confidence_score_bounded
    (dist : ℚ → ℚ → ℚ → ℚ → ℚ) (cosd : ℚ → ℚ) (aoi : ℚ × ℚ × ℚ × ℚ)
    (hansen : Option HansenStats) (glad_alerts radd_alerts fires : List GeoEvent)
    (sentinel : Option SentinelEvidence)
    (infrastructure : List InfrastructureNode)
    (suspects : List Company) (sentiment : Option CombinedSentiment) :
    0 ≤ (correlate_events dist cosd aoi hansen glad_alerts radd_alerts fires
      sentinel infrastructure suspects sentiment).2 ∧
    (correlate_events dist cosd aoi hansen glad_alerts radd_alerts fires
      sentinel infrastructure suspects sentiment).2 ≤ 100 := by
  unfold correlate_events
  dsimp only
  have hsp := spatial_score_bounds dist infrastructure
    (glad_alerts ++ radd_alerts ++ fires) MAX_PROXIMITY_DISTANCE_M
  have htc := temporal_score_bounds fires (glad_alerts ++ radd_alerts)
    TEMPORAL_WINDOW_DAYS
  have hss := sentinel_scores_bounds sentinel
  have hds := density_score_bounds cosd glad_alerts radd_alerts fires aoi
  have h1 : (0 : ℚ) ≤ (if glad_alerts ≠ [] ∨ radd_alerts ≠ [] then (15 : ℚ) else 0) ∧
      (if glad_alerts ≠ [] ∨ radd_alerts ≠ [] then (15 : ℚ) else 0) ≤ 15 := by
    split_ifs <;> norm_num
  have h2 : (0 : ℚ) ≤ (if fires ≠ [] then (10 : ℚ) else 0) ∧
      (if fires ≠ [] then (10 : ℚ) else 0) ≤ 10 := by
    split_ifs <;> norm_num
  have h3 : (0 : ℚ) ≤ (if sentinel.isSome ∧
        (truthyOptQ ((sentinel.map (·.ndvi)).join) ∨
         truthyOptQ ((sentinel.map (·.nbr)).join)) then (15 : ℚ) else 0) ∧
      (if sentinel.isSome ∧
        (truthyOptQ ((sentinel.map (·.ndvi)).join) ∨
         truthyOptQ ((sentinel.map (·.nbr)).join)) then (15 : ℚ) else 0) ≤ 15 := by
    split_ifs <;> norm_num
  have h4 := hansenBonus_bounds hansen
  have h5 : (0 : ℚ) ≤ (if infrastructure ≠ [] then (10 : ℚ) else 0) ∧
      (if infrastructure ≠ [] then (10 : ℚ) else 0) ≤ 10 := by
    split_ifs <;> norm_num
  have h6 : (0 : ℚ) ≤ (if sentiment.isSome then (5 : ℚ) else 0) ∧
      (if sentiment.isSome then (5 : ℚ) else 0) ≤ 5 := by
    split_ifs <;> norm_num
  constructor
  · apply pyRound_nonneg
    apply le_min (by norm_num)
    have := hsp.1; have := htc.1; have := hss.1.1; have := hss.2.1.1
    have := hss.2.2.1; have := hds.1
    nlinarith [h1.1, h2.1, h3.1, h4.1, h5.1, h6.1]
  · exact pyRound_min100_le _

-- ============== C3 ==============

/-- The number of (infrastructure node, alert) pairs whose distance
under `dist` is within `max_distance`. -/
def closePairCount (dist : ℚ → ℚ → ℚ → ℚ → ℚ)
    (infrastructure : List InfrastructureNode) (alerts : List GeoEvent)
    (max_distance : ℚ) : ℕ :=
  (infrastructure ×ˢ alerts).countP (fun pr =>
    dist pr.1.latitude pr.1.longitude pr.2.latitude pr.2.longitude ≤
      max_distance)

lemma length_filterMap_ite {α β : Type} (p : α → Prop) [DecidablePred p]
    (g : α → β) (l : List α) :
    (l.filterMap (fun a => if p a then some (g a) else none)).length =
      l.countP (fun a => decide (p a)) := by
  induction l with
  | nil => rfl
  | cons a t ih =>
    by_cases h : p a <;>
      simp [List.filterMap_cons, h, List.countP_cons, ih]

lemma proximityDetails_length (dist : ℚ → ℚ → ℚ → ℚ → ℚ)
    (infrastructure : List InfrastructureNode) (alerts : List GeoEvent)
    (max_distance : ℚ) :
    (proximityDetails dist infrastructure alerts max_distance).length =
      closePairCount dist infrastructure alerts max_distance := by
  induction infrastructure with
  | nil => rfl
  | cons node ns ih =>
    unfold proximityDetails closePairCount at *
    simp only [List.flatMap_cons, List.length_append, List.product_cons,
      List.countP_append, List.countP_map, ih]
    congr 1
    exact length_filterMap_ite
      (p := fun alert => dist node.latitude node.longitude
        alert.latitude alert.longitude ≤ max_distance)
      (g := fun alert =>
        ({ infrastructure := nodeDisplayName node,
           infrastructure_type := node.node_type,
           distance_m := pyRound (dist node.latitude node.longitude
             alert.latitude alert.longitude) 1,
           alert_type := alert.kind } : ProximityDetail))
      alerts

/-- C3: the spatial proximity score is the fixed piecewise function of
`n`, the number of (node, alert) pairs within `max_distance` under the
distance function: 0 at n = 0, n×0.15 for 1 ≤ n ≤ 4,
0.6+(n−5)×0.05 for 5 ≤ n ≤ 9, min(1, 0.85+(n−10)×0.01) for n ≥ 10;
an empty input list yields score 0 with an empty detail list; and the
score always lies in [0, 1]. -/
theorem spatial_proximity_score_spec (dist : ℚ → ℚ → ℚ → ℚ → ℚ)
    (infrastructure : List InfrastructureNode) (alerts : List GeoEvent)
    (max_distance : ℚ) :
    ((calculate_spatial_proximity_score dist infrastructure alerts
        max_distance).1 =
      if closePairCount dist infrastructure alerts max_distance = 0 then 0
      else if closePairCount dist infrastructure alerts max_distance ≤ 4 then
        (closePairCount dist infrastructure alerts max_distance : ℚ) * 0.15
      else if closePairCount dist infrastructure alerts max_distance ≤ 9 then
        0.6 + ((closePairCount dist infrastructure alerts max_distance : ℤ) - 5) * 0.05
      else
        min 1 (0.85 + ((closePairCount dist infrastructure alerts max_distance : ℤ) - 10) * 0.01)) ∧
    (infrastructure = [] ∨ alerts = [] →
      calculate_spatial_proximity_score dist infrastructure alerts
        max_distance = (0, [])) ∧
    0 ≤ (calculate_spatial_proximity_score dist infrastructure alerts
      max_distance).1 ∧
    (calculate_spatial_proximity_score dist infrastructure alerts
      max_distance).1 ≤ 1 := by
  refine ⟨?_, ?_, (spatial_score_bounds dist infrastructure alerts max_distance).1,
    (spatial_score_bounds dist infrastructure alerts max_distance).2⟩
  · unfold calculate_spatial_proximity_score
    by_cases h : infrastructure = [] ∨ alerts = []
    · rw [if_pos h]
      have hn : closePairCount dist infrastructure alerts max_distance = 0 := by
        unfold closePairCount
        rcases h with h | h <;> rw [h] <;> simp
      rw [hn]
      norm_num
    · rw [if_neg h]
      dsimp only
      unfold spatialCurve
      rw [proximityDetails_length]
      split_ifs <;> first | rfl | omega
  · intro h
    unfold calculate_spatial_proximity_score
    rw [if_pos h]

/-- Witness for C3 at a concrete empty input. -/
theorem spatial_proximity_score_spec_witness :
    calculate_spatial_proximity_score (fun _ _ _ _ => 0) [] [] 5000 = (0, []) ∧
    0 ≤ (calculate_spatial_proximity_score (fun _ _ _ _ => 0) [] [] 5000).1 := by
  have h := spatial_proximity_score_spec (fun _ _ _ _ => 0) [] [] 5000
  exact ⟨h.2.1 (Or.inl rfl), h.2.2.1⟩

-- ============== C5 ==============

/-- The fire×alert pairs whose absolute day difference is within the
window. -/
def windowPairs (fires alerts : List GeoEvent) (window_days : ℤ) :
    List (GeoEvent × GeoEvent) :=
  (fires ×ˢ alerts).filter (fun p =>
    |timedeltaDays p.1.time p.2.time| ≤ window_days)

/-- The detail row recorded for one in-window pair. -/
def detailOfPair (window_days : ℤ) (p : GeoEvent × GeoEvent) : TemporalDetail :=
  { fire_date := p.1.time,
    alert_date := p.2.time,
    days_apart := |timedeltaDays p.1.time p.2.time|,
    correlation_strength :=
      pyRound (1 - (|timedeltaDays p.1.time p.2.time| : ℚ) / (window_days : ℚ)) 2 }

lemma filterMap_ite_eq_map_filter {α β : Type} (p : α → Prop) [DecidablePred p]
    (g : α → β) (l : List α) :
    l.filterMap (fun a => if p a then some (g a) else none) =
      (l.filter (fun a => decide (p a))).map g := by
  induction l with
  | nil => rfl
  | cons a t ih =>
    by_cases h : p a <;>
      simp [List.filterMap_cons, List.filter_cons, h, ih]

lemma temporalMatches_eq_windowPairs (fires alerts : List GeoEvent) (w : ℤ) :
    temporalMatches fires alerts w =
      (windowPairs fires alerts w).map (detailOfPair w) := by
  induction fires with
  | nil => rfl
  | cons f fs ih =>
    have hhead : ∀ as : List GeoEvent,
        List.filterMap (fun alert =>
          let time_diff := |timedeltaDays f.time alert.time|
          if time_diff ≤ w then
            some { fire_date := f.time,
                   alert_date := alert.time,
                   days_apart := time_diff,
                   correlation_strength :=
                     pyRound (1 - (time_diff : ℚ) / (w : ℚ)) 2 }
          else none) as =
        List.map (detailOfPair w)
          (List.filter (fun p => |timedeltaDays p.1.time p.2.time| ≤ w)
            (as.map (fun b => (f, b)))) := by
      intro as
      induction as with
      | nil => rfl
      | cons a t iht =>
        by_cases h : |timedeltaDays f.time a.time| ≤ w
        · have hc : (fun p : GeoEvent × GeoEvent =>
              decide (|timedeltaDays p.1.time p.2.time| ≤ w)) (f, a) = true := by
            simpa using h
          rw [List.filterMap_cons]
          dsimp only
          rw [if_pos h]
          dsimp only
          rw [iht, List.map_cons, List.filter_cons, if_pos hc, List.map_cons]
          simp [detailOfPair]
        · have hc : ¬ (fun p : GeoEvent × GeoEvent =>
              decide (|timedeltaDays p.1.time p.2.time| ≤ w)) (f, a) = true := by
            simpa using h
          rw [List.filterMap_cons]
          dsimp only
          rw [if_neg h]
          dsimp only
          rw [iht, List.map_cons, List.filter_cons, if_neg hc]
    unfold temporalMatches windowPairs at ih ⊢
    simp only [List.flatMap_cons, List.product_cons, List.filter_append,
      List.map_append]
    rw [ih]
    congr 1
    exact hhead alerts

/-- C5 counterexample: one fire one day after one alert, window 14.
The source averages the strengths after rounding them to 2 decimals
(`round(strength, 2)`), so the score is 0.93 + 0.05 = 0.98, not the
claimed min(1, (1 − 1/14) + min(0.3, 0.05·1)) = 137/140 ≈ 0.9786. -/
theorem temporal_correlation_score_cex :
    (calculate_temporal_correlation_score
      [{ latitude := 0, longitude := 0, time := 86400, kind := "FireEvent" }]
      [{ latitude := 0, longitude := 0, time := 0, kind := "GLADAlert" }]
      14).1 = 49/50 ∧
    (49/50 : ℚ) ≠ min 1 ((1 - 1/14) + min 0.3 (0.05 * 1)) := by
  constructor
  · have hfd : timedeltaDays 86400 0 = 1 := by decide
    have habs : |(1 : ℤ)| = 1 := by decide
    simp only [calculate_temporal_correlation_score, temporalMatches,
      List.flatMap_cons, List.flatMap_nil, List.filterMap_cons,
      List.filterMap_nil, hfd, habs]
    norm_num [pyRound, rndHalfEven]
  · rw [min_eq_right (by norm_num), min_eq_right (by norm_num)]
    norm_num

/-- C5 (amended): each fire×alert pair with absolute day difference
within the 14-day window is a match with strength
round(1 − daysApart/14, 2) — the source stores the strength rounded to
two decimals and averages the rounded values; the score is
min(1, average(rounded strength) + min(0.3, 0.05×matchCount)); with no
matches (in particular when either list is empty) the result is
(0, []). -/
theorem temporal_correlation_score_spec (fires alerts : List GeoEvent) :
    ((calculate_temporal_correlation_score fires alerts 14).1 =
      if windowPairs fires alerts 14 = [] then 0
      else
        min 1
          (((windowPairs fires alerts 14).map
              (fun p => pyRound (1 - (|timedeltaDays p.1.time p.2.time| : ℚ) / 14) 2)).sum /
              ((windowPairs fires alerts 14).length : ℚ) +
            min 0.3 (((windowPairs fires alerts 14).length : ℚ) * 0.05))) ∧
    ((calculate_temporal_correlation_score fires alerts 14).2 =
      (windowPairs fires alerts 14).map (detailOfPair 14)) ∧
    (fires = [] ∨ alerts = [] →
      calculate_temporal_correlation_score fires alerts 14 = (0, [])) := by
  have hm := temporalMatches_eq_windowPairs fires alerts 14
  refine ⟨?_, ?_, ?_⟩
  · unfold calculate_temporal_correlation_score
    by_cases h1 : fires = [] ∨ alerts = []
    · rw [if_pos h1]
      have hw : windowPairs fires alerts 14 = [] := by
        unfold windowPairs
        rcases h1 with h | h <;> rw [h] <;> simp
      rw [hw]
      norm_num
    · rw [if_neg h1]
      dsimp only
      rw [hm]
      by_cases h2 : windowPairs fires alerts 14 = []
      · rw [h2]
        simp
      · rw [if_neg (by simpa using h2), if_neg h2]
        dsimp only
        rw [List.map_map, List.length_map]
        rfl
  · unfold calculate_temporal_correlation_score
    by_cases h1 : fires = [] ∨ alerts = []
    · rw [if_pos h1]
      have hw : windowPairs fires alerts 14 = [] := by
        unfold windowPairs
        rcases h1 with h | h <;> rw [h] <;> simp
      rw [hw]
      rfl
    · rw [if_neg h1]
      dsimp only
      rw [hm]
      by_cases h2 : windowPairs fires alerts 14 = []
      · rw [h2]
        simp
      · rw [if_neg (by simpa using h2)]
  · intro h1
    unfold calculate_temporal_correlation_score
    rw [if_pos h1]

/-- Witness for C5 at a concrete empty input. -/
theorem temporal_correlation_score_spec_witness :
    calculate_temporal_correlation_score []
      [{ latitude := 0, longitude := 0, time := 0, kind := "GLADAlert" }]
      14 = (0, []) := by
  exact (temporal_correlation_score_spec []
    [{ latitude := 0, longitude := 0, time := 0, kind := "GLADAlert" }]).2.2
    (Or.inl rfl)

-- ============== C6 ==============

lemma ndviRaw_antitone {x y : ℚ} (h : x ≤ y) :
    ndviRawScore y ≤ ndviRawScore x := by
  unfold ndviRawScore
  by_cases hx1 : x < 0.2
  · rw [if_pos hx1]
    by_cases hy1 : y < 0.2
    · rw [if_pos hy1]; linarith
    · rw [if_neg hy1]
      by_cases hy2 : y < 0.4
      · rw [if_pos hy2]; linarith
      · rw [if_neg hy2]
        apply max_le <;> linarith
  · rw [if_neg hx1, if_neg (show ¬ y < 0.2 by linarith)]
    by_cases hx2 : x < 0.4
    · rw [if_pos hx2]
      by_cases hy2 : y < 0.4
      · rw [if_pos hy2]; linarith
      · rw [if_neg hy2]
        apply max_le <;> linarith
    · rw [if_neg hx2, if_neg (show ¬ y < 0.4 by linarith)]
      exact max_le_max le_rfl (by linarith)

lemma nbrRaw_antitone {x y : ℚ} (h : x ≤ y) :
    nbrRawScore y ≤ nbrRawScore x := by
  unfold nbrRawScore
  by_cases hy1 : y < -0.1
  · have hx1 : x < -0.1 := by linarith
    rw [if_pos hy1, if_pos hx1,
      abs_of_neg (show y < 0 by linarith), abs_of_neg (show x < 0 by linarith)]
    linarith
  · rw [if_neg hy1]
    by_cases hx1 : x < -0.1
    · rw [if_pos hx1]
      have hax : (0 : ℚ) ≤ |x| := abs_nonneg x
      split_ifs <;> nlinarith
    · rw [if_neg hx1]
      split_ifs <;> linarith

/-- C6 counterexample: the burn-index sub-score is not monotone across
the 0.3 activation threshold: at burn index 0.3 it is 0.6, but at 0.35
it is 0.525. -/
theorem sentinel_monotonicity_cex :
    (3/10 : ℚ) ≤ 7/20 ∧ burnScore (3/10) = 3/5 ∧ burnScore (7/20) = 21/40 ∧
    ¬ burnScore (3/10) ≤ burnScore (7/20) := by
  have h1 : burnScore (3/10) = 3/5 := by
    unfold burnScore BURN_INDEX_THRESHOLD
    norm_num
  have h2 : burnScore (7/20) = 21/40 := by
    unfold burnScore BURN_INDEX_THRESHOLD
    rw [if_pos (by norm_num), min_eq_right (by norm_num)]
    norm_num
  refine ⟨by norm_num, h1, h2, ?_⟩
  rw [h1, h2]
  norm_num

/-- C6 (amended): the NDVI sub-score is antitone (lower NDVI never
yields a lower score) and the NBR sub-score is antitone (more negative
NBR never yields a lower score), as claimed; the burn-index sub-score
is monotone non-decreasing only on each side of the 0.3 threshold
(on indices ≤ 0.3 and on indices > 0.3), not globally. -/
theorem sentinel_scores_monotone (x y : ℚ) (h : x ≤ y) :
    ndviScore y ≤ ndviScore x ∧
    nbrScore y ≤ nbrScore x ∧
    (y ≤ 3/10 → burnScore x ≤ burnScore y) ∧
    (3/10 < x → burnScore x ≤ burnScore y) := by
  refine ⟨min_le_min le_rfl (ndviRaw_antitone h),
    min_le_min le_rfl (nbrRaw_antitone h), ?_, ?_⟩
  · intro hy
    unfold burnScore BURN_INDEX_THRESHOLD
    rw [if_neg (show ¬ y > 0.3 by linarith), if_neg (show ¬ x > 0.3 by linarith)]
    split_ifs <;> linarith
  · intro hx
    unfold burnScore BURN_INDEX_THRESHOLD
    rw [if_pos (show y > 0.3 by linarith), if_pos (show x > 0.3 by linarith)]
    exact min_le_min le_rfl (by linarith)

/-- Witness for C6 at concrete index values. -/
theorem sentinel_scores_monotone_witness :
    ndviScore (1/4) ≤ ndviScore 0 ∧ burnScore 0 ≤ burnScore (1/4) ∧
    burnScore (2/5) ≤ burnScore (1/2) := by
  refine ⟨(sentinel_scores_monotone 0 (1/4) (by norm_num)).1, ?_, ?_⟩
  · exact (sentinel_scores_monotone 0 (1/4) (by norm_num)).2.2.1 (by norm_num)
  · exact (sentinel_scores_monotone (2/5) (1/2) (by norm_num)).2.2.2 (by norm_num)

-- ============== C7 ==============

/-- Following the spec's words: the sum of the fixed source weights
(0.5/0.3/0.2) over the sources with `count > 0`. -/
def specSentimentWeightSum (google gdelt reddit : Option SentimentScore) : ℚ :=
  (if sentimentPresent google then 0.5 else 0) +
  (if sentimentPresent gdelt then 0.3 else 0) +
  (if sentimentPresent reddit then 0.2 else 0)

/-- Following the spec's words: the weighted sum of present sources'
polarities. -/
def specSentimentWeightedPolarity (google gdelt reddit : Option SentimentScore) : ℚ :=
  (if sentimentPresent google then ((google.map (·.score)).getD 0) * 0.5 else 0) +
  (if sentimentPresent gdelt then ((gdelt.map (·.score)).getD 0) * 0.3 else 0) +
  (if sentimentPresent reddit then ((reddit.map (·.score)).getD 0) * 0.2 else 0)

/-- Following the spec's words: the total sample count over present
sources. -/
def specSentimentSampleCount (google gdelt reddit : Option SentimentScore) : ℤ :=
  (if sentimentPresent google then (google.map (·.count)).getD 0 else 0) +
  (if sentimentPresent gdelt then (gdelt.map (·.count)).getD 0 else 0) +
  (if sentimentPresent reddit then (reddit.map (·.count)).getD 0 else 0)

/-- Following the spec's words: the number of present sources. -/
def specSentimentPresentCount (google gdelt reddit : Option SentimentScore) : ℕ :=
  (if sentimentPresent google then 1 else 0) +
  (if sentimentPresent gdelt then 1 else 0) +
  (if sentimentPresent reddit then 1 else 0)

set_option maxHeartbeats 1600000 in
lemma compute_combined_sentiment_final (google gdelt reddit : Option SentimentScore) :
    (compute_combined_sentiment google gdelt reddit).final_score =
      pyRound (if 0 < specSentimentWeightSum google gdelt reddit then
        specSentimentWeightedPolarity google gdelt reddit /
          specSentimentWeightSum google gdelt reddit
        else 0) 3 := by
  unfold compute_combined_sentiment specSentimentWeightSum
    specSentimentWeightedPolarity
  cases google <;> cases gdelt <;> cases reddit <;>
    dsimp only <;>
    simp only [sentimentPresent, sentimentSourceWeight, List.filter_cons,
      List.filter_nil, String.reduceEq, reduceIte, List.map_cons, List.map_nil,
      List.sum_cons, List.sum_nil,
      Option.map_some', Option.map_none', Option.getD_some, Option.getD_none,
      decide_eq_true_eq, Bool.false_eq_true, if_false, if_true] <;>
    (try split_ifs) <;>
    (try simp only [sentimentPresent, sentimentSourceWeight, List.map_cons,
      List.map_nil, List.sum_cons, List.sum_nil, String.reduceEq, reduceIte,
      Option.map_some', Option.map_none', Option.getD_some, Option.getD_none,
      decide_eq_true_eq, Bool.false_eq_true, if_false, if_true] at *) <;>
    first
      | rfl
      | (exfalso; linarith)
      | (congr 1 <;> field_simp <;> ring)

set_option maxHeartbeats 1600000 in
lemma compute_combined_sentiment_conf (google gdelt reddit : Option SentimentScore) :
    (compute_combined_sentiment google gdelt reddit).confidence =
      pyRound (0.6 * min 1 ((specSentimentSampleCount google gdelt reddit : ℚ) / 50) +
        0.4 * ((specSentimentPresentCount google gdelt reddit : ℚ) / 3)) 3 := by
  unfold compute_combined_sentiment specSentimentSampleCount
    specSentimentPresentCount
  cases google <;> cases gdelt <;> cases reddit <;>
    dsimp only <;>
    simp only [sentimentPresent, sentimentSourceWeight, List.filter_cons,
      List.filter_nil, String.reduceEq, reduceIte, List.map_cons, List.map_nil,
      List.sum_cons, List.sum_nil, List.length_cons, List.length_nil,
      Option.map_some', Option.map_none', Option.getD_some, Option.getD_none,
      decide_eq_true_eq, Bool.false_eq_true, if_false, if_true] <;>
    (try split_ifs) <;>
    (try simp only [sentimentPresent, sentimentSourceWeight, List.map_cons,
      List.map_nil, List.sum_cons, List.sum_nil, List.length_cons,
      List.length_nil, String.reduceEq, reduceIte,
      Option.map_some', Option.map_none', Option.getD_some, Option.getD_none,
      decide_eq_true_eq, Bool.false_eq_true, if_false, if_true] at *) <;>
    first
      | rfl
      | (exfalso; linarith)
      | (congr 1 <;> push_cast <;> ring_nf)

/-- C7 counterexample: one present source with count 10 and polarity
0.1234; the code rounds the combined polarity to 3 decimals and
returns 0.123, while the claim's weight-normalized average
(0.5·0.1234)/0.5 = 0.1234. -/
theorem combined_sentiment_cex :
    (compute_combined_sentiment
      (some { count := 10, score := 617/5000 }) none none).final_score =
      123/1000 ∧
    (123/1000 : ℚ) ≠ (0.5 * (617/5000)) / 0.5 := by
  constructor
  · simp only [compute_combined_sentiment, sentimentPresent,
      sentimentSourceWeight, List.filter_cons, List.filter_nil,
      String.reduceEq, reduceIte, mostCommonKeyword, uniqueInOrder]
    norm_num [pyRound, rndHalfEven]
  · norm_num

/-- C7 (amended): the combined polarity is the weight-normalized
(0.5/0.3/0.2) average of the present sources' polarities rounded to 3
decimals, and the confidence is
0.6·min(1, totalSamples/50)+0.4·(presentSources/3) rounded to 3
decimals; with no present source both are 0; the spec's concrete
examples hold: three sources (10,−0.5)/(20,−0.3)/(5,−0.7) give polarity
−0.48 with confidence > 0.5, and a single source (10,−0.5) gives
polarity −0.5 with confidence < 0.5. -/
theorem combined_sentiment_spec (google gdelt reddit : Option SentimentScore) :
    ((compute_combined_sentiment google gdelt reddit).final_score =
      pyRound (if 0 < specSentimentWeightSum google gdelt reddit then
        specSentimentWeightedPolarity google gdelt reddit /
          specSentimentWeightSum google gdelt reddit
        else 0) 3) ∧
    ((compute_combined_sentiment google gdelt reddit).confidence =
      pyRound (0.6 * min 1 ((specSentimentSampleCount google gdelt reddit : ℚ) / 50) +
        0.4 * ((specSentimentPresentCount google gdelt reddit : ℚ) / 3)) 3) ∧
    (sentimentPresent google = false ∧ sentimentPresent gdelt = false ∧
      sentimentPresent reddit = false →
      (compute_combined_sentiment google gdelt reddit).final_score = 0 ∧
      (compute_combined_sentiment google gdelt reddit).confidence = 0) ∧
    ((compute_combined_sentiment (some ⟨10, -0.5, [], []⟩)
        (some ⟨20, -0.3, [], []⟩) (some ⟨5, -0.7, [], []⟩)).final_score = -0.48 ∧
      (compute_combined_sentiment (some ⟨10, -0.5, [], []⟩)
        (some ⟨20, -0.3, [], []⟩) (some ⟨5, -0.7, [], []⟩)).confidence > 0.5) ∧
    ((compute_combined_sentiment (some ⟨10, -0.5, [], []⟩) none none).final_score
        = -0.5 ∧
      (compute_combined_sentiment (some ⟨10, -0.5, [], []⟩) none none).confidence
        < 0.5) := by
  refine ⟨compute_combined_sentiment_final google gdelt reddit,
    compute_combined_sentiment_conf google gdelt reddit, ?_, ⟨?_, ?_⟩, ⟨?_, ?_⟩⟩
  · rintro ⟨hg, hgd, hr⟩
    constructor
    · rw [compute_combined_sentiment_final]
      simp [specSentimentWeightSum, specSentimentWeightedPolarity, hg, hgd, hr,
        pyRound, rndHalfEven]
    · rw [compute_combined_sentiment_conf]
      simp [specSentimentSampleCount, specSentimentPresentCount, hg, hgd, hr,
        pyRound, rndHalfEven]
  · rw [compute_combined_sentiment_final]
    simp only [specSentimentWeightSum, specSentimentWeightedPolarity,
      sentimentPresent, Option.map_some', Option.getD_some]
    norm_num [pyRound, rndHalfEven]
  · rw [compute_combined_sentiment_conf]
    simp only [specSentimentSampleCount, specSentimentPresentCount,
      sentimentPresent, Option.map_some', Option.getD_some]
    norm_num [pyRound, rndHalfEven]
  · rw [compute_combined_sentiment_final]
    simp only [specSentimentWeightSum, specSentimentWeightedPolarity,
      sentimentPresent, Option.map_some', Option.getD_some]
    norm_num [pyRound, rndHalfEven]
  · rw [compute_combined_sentiment_conf]
    simp only [specSentimentSampleCount, specSentimentPresentCount,
      sentimentPresent, Option.map_some', Option.getD_some]
    norm_num [pyRound, rndHalfEven]

/-- Witness for C7 with no present sources. -/
theorem combined_sentiment_spec_witness :
    (compute_combined_sentiment none none none).final_score = 0 ∧
    (compute_combined_sentiment none none none).confidence = 0 := by
  exact (combined_sentiment_spec none none none).2.2.1 ⟨rfl, rfl, rfl⟩

-- ============== C4 ==============

/-- Following the spec's words (C4): the imagery presence bonus as the
claim states it — +15 whenever the imagery signal is present with its
ndvi or nbr FIELD present, regardless of the field's value. -/
def specImageryBonusC4 (sentinel : Option SentinelEvidence) : ℚ :=
  match sentinel with
  | some s => if s.ndvi.isSome ∨ s.nbr.isSome then 15 else 0
  | none => 0

/-- C4 counterexample: a bundle whose only signal is an imagery record
with `ndvi = 0.0` (field present, value zero).  The claim grants the
+15 imagery bonus, so with the NDVI category score 0.9 it would give a
confidence of at least 15; the code tests Python truthiness
(`sentinel.ndvi or sentinel.nbr`), treats `0.0` as absent, and returns
only 0.9·5 = 4.5. -/
theorem presence_bonus_cex :
    (correlate_events (fun _ _ _ _ => 0) (fun _ => 1) (0, 0, 1, 1)
      none [] [] [] (some { ndvi := some 0 }) [] [] none).2 = 9/2 ∧
    specImageryBonusC4 (some { ndvi := some 0 }) = 15 ∧
    (9/2 : ℚ) < 15 := by
  refine ⟨?_, by norm_num [specImageryBonusC4], by norm_num⟩
  norm_num [correlate_events, calculate_spatial_proximity_score,
    calculate_temporal_correlation_score, calculate_sentinel_scores,
    calculate_alert_density_score, calculate_sentiment_score,
    evidenceChainsFor, sortChainsDesc, truthyOptQ, hansenBonus,
    ndviScore, ndviRawScore, pyRound, rndHalfEven]

/-- C4 (amended): the aggregator adds the fixed presence bonuses +15
for non-empty combined deforestation alerts, +10 for non-empty fires,
+15 when the imagery signal is present and its ndvi or nbr is present
with a NONZERO value (Python truthiness: a present 0.0 field earns no
bonus), +10 for forest-loss stats with loss > 0, +10 for non-empty
infrastructure, and +5 for present sentiment — on top of the weighted
score contributions, before the min-100 cap and 1-decimal rounding. -/
theorem presence_bonus_spec (dist : ℚ → ℚ → ℚ → ℚ → ℚ) (cosd : ℚ → ℚ)
    (aoi : ℚ × ℚ × ℚ × ℚ) (hansen : Option HansenStats)
    (glad_alerts radd_alerts fires : List GeoEvent)
    (sentinel : Option SentinelEvidence)
    (infrastructure : List InfrastructureNode)
    (suspects : List Company) (sentiment : Option CombinedSentiment) :
    (correlate_events dist cosd aoi hansen glad_alerts radd_alerts fires
      sentinel infrastructure suspects sentiment).2 =
      pyRound (min 100 (
        (if glad_alerts ++ radd_alerts ≠ [] then (15 : ℚ) else 0) +
        (if fires ≠ [] then 10 else 0) +
        (match sentinel with
         | some s => if s.ndvi.getD 0 ≠ 0 ∨ s.nbr.getD 0 ≠ 0 then (15 : ℚ) else 0
         | none => 0) +
        (match hansen with
         | some h => if 0 < h.total_loss_ha then (10 : ℚ) else 0
         | none => 0) +
        (if infrastructure ≠ [] then 10 else 0) +
        (if sentiment.isSome then 5 else 0) +
        (calculate_spatial_proximity_score dist infrastructure
          (glad_alerts ++ radd_alerts ++ fires)).1 * 15 +
        (calculate_temporal_correlation_score fires
          (glad_alerts ++ radd_alerts)).1 * 10 +
        (calculate_alert_density_score cosd glad_alerts radd_alerts fires aoi).1 * 10 +
        (calculate_sentinel_scores sentinel).ndvi.1 * 5 +
        (calculate_sentinel_scores sentinel).nbr.1 * 5 +
        (calculate_sentinel_scores sentinel).burn.1 * 5)) 1 := by
  unfold correlate_events
  dsimp only
  have e1 : (if glad_alerts ≠ [] ∨ radd_alerts ≠ [] then (15 : ℚ) else 0) =
      (if glad_alerts ++ radd_alerts ≠ [] then (15 : ℚ) else 0) := by
    by_cases h : glad_alerts ++ radd_alerts = []
    · rw [List.append_eq_nil] at h
      simp [h.1, h.2]
    · have h' : glad_alerts ≠ [] ∨ radd_alerts ≠ [] := by
        by_contra hc
        push_neg at hc
        simp [hc.1, hc.2] at h
      rw [if_pos h', if_pos h]
  have e3 : (if sentinel.isSome ∧
        (truthyOptQ ((sentinel.map (·.ndvi)).join) ∨
         truthyOptQ ((sentinel.map (·.nbr)).join)) then (15 : ℚ) else 0) =
      (match sentinel with
       | some s => if s.ndvi.getD 0 ≠ 0 ∨ s.nbr.getD 0 ≠ 0 then (15 : ℚ) else 0
       | none => 0) := by
    cases sentinel with
    | none => simp [truthyOptQ]
    | some s =>
      cases hn : s.ndvi with
      | none =>
        cases hb : s.nbr with
        | none => simp [truthyOptQ, hn, hb]
        | some b => simp [truthyOptQ, hn, hb]
      | some a =>
        cases hb : s.nbr with
        | none => simp [truthyOptQ, hn, hb]
        | some b => simp [truthyOptQ, hn, hb]
  have e4 : hansenBonus hansen =
      (match hansen with
       | some h => if 0 < h.total_loss_ha then (10 : ℚ) else 0
       | none => 0) := by
    cases hansen with
    | none => rfl
    | some h => rfl
  rw [← e1, ← e3, ← e4]

-- ============== C8 / C9 shared lemmas ==============

lemma evidenceChainsFor_eq_map (dist : ℚ → ℚ → ℚ → ℚ → ℚ)
    (infrastructure : List InfrastructureNode) (damage : List GeoEvent)
    (spatial_score : ℚ) (spatial_details : List ProximityDetail)
    (temporal_score : ℚ) (temporal_details : List TemporalDetail)
    (sentinel_scores : SentinelScores)
    (density_score : ℚ) (density_explanation : String)
    (sentiment_score : ℚ) (sentiment_explanation : String)
    (suspects : List Company) :
    evidenceChainsFor dist infrastructure damage spatial_score spatial_details
      temporal_score temporal_details sentinel_scores density_score
      density_explanation sentiment_score sentiment_explanation suspects =
    suspects.map (fun suspect =>
      build_evidence_chain suspect
        (suspectSpatial dist infrastructure damage spatial_score
          spatial_details suspect).1
        (suspectSpatial dist infrastructure damage spatial_score
          spatial_details suspect).2
        temporal_score temporal_details sentinel_scores density_score
        density_explanation sentiment_score sentiment_explanation) := by
  unfold evidenceChainsFor
  suffices h : ∀ acc : List EvidenceChain,
      suspects.foldl (fun acc suspect =>
        let ss := suspectSpatial dist infrastructure damage
          spatial_score spatial_details suspect
        acc ++ [build_evidence_chain suspect ss.1 ss.2
          temporal_score temporal_details sentinel_scores
          density_score density_explanation
          sentiment_score sentiment_explanation]) acc =
      acc ++ suspects.map (fun suspect =>
        build_evidence_chain suspect
          (suspectSpatial dist infrastructure damage spatial_score
            spatial_details suspect).1
          (suspectSpatial dist infrastructure damage spatial_score
            spatial_details suspect).2
          temporal_score temporal_details sentinel_scores density_score
          density_explanation sentiment_score sentiment_explanation) by
    simpa using h []
  induction suspects with
  | nil => intro acc; simp
  | cons s ss ih =>
    intro acc
    simp only [List.foldl_cons, List.map_cons, ih]
    simp

/-- The descending-by-total-weight order used for ranking. -/
def chainGE (a b : EvidenceChain) : Prop := b.total_weight ≤ a.total_weight

lemma insertChainDesc_perm (c : EvidenceChain) (l : List EvidenceChain) :
    (insertChainDesc c l).Perm (c :: l) := by
  induction l with
  | nil => exact List.Perm.refl _
  | cons x xs ih =>
    unfold insertChainDesc
    split_ifs
    · exact List.Perm.refl _
    · exact (ih.cons x).trans (List.Perm.swap c x xs)

lemma sortChainsDesc_perm (l : List EvidenceChain) :
    (sortChainsDesc l).Perm l := by
  unfold sortChainsDesc
  suffices h : ∀ acc : List EvidenceChain,
      (l.foldl (fun acc c => insertChainDesc c acc) acc).Perm (acc ++ l) by
    simpa using h []
  induction l with
  | nil => intro acc; simp
  | cons c cs ih =>
    intro acc
    simp only [List.foldl_cons]
    refine (ih (insertChainDesc c acc)).trans ?_
    refine (((insertChainDesc_perm c acc).append_right cs).trans ?_)
    simpa using (List.perm_middle :
      List.Perm (acc ++ c :: cs) (c :: (acc ++ cs))).symm

lemma insertChainDesc_sorted (c : EvidenceChain) {l : List EvidenceChain}
    (hl : l.Pairwise chainGE) : (insertChainDesc c l).Pairwise chainGE := by
  induction l with
  | nil => simp [insertChainDesc, chainGE]
  | cons x xs ih =>
    rw [List.pairwise_cons] at hl
    obtain ⟨hx, hxs⟩ := hl
    unfold insertChainDesc
    split_ifs with h
    · refine List.Pairwise.cons ?_ (List.Pairwise.cons hx hxs)
      intro y hy
      rcases List.mem_cons.mp hy with rfl | hy
      · exact le_of_lt h
      · exact le_trans (hx y hy) (le_of_lt h)
    · refine List.Pairwise.cons ?_ (ih hxs)
      intro y hy
      have : y ∈ c :: xs := (insertChainDesc_perm c xs).subset hy
      rcases List.mem_cons.mp this with rfl | hy'
      · exact not_lt.mp h
      · exact hx y hy'

lemma sortChainsDesc_sorted (l : List EvidenceChain) :
    (sortChainsDesc l).Pairwise chainGE := by
  unfold sortChainsDesc
  suffices h : ∀ acc : List EvidenceChain, acc.Pairwise chainGE →
      (l.foldl (fun acc c => insertChainDesc c acc) acc).Pairwise chainGE by
    exact h [] (List.Pairwise.nil)
  induction l with
  | nil => intro acc hacc; simpa using hacc
  | cons c cs ih =>
    intro acc hacc
    simp only [List.foldl_cons]
    exact ih _ (insertChainDesc_sorted c hacc)

lemma filter_insertChainDesc (w : ℚ) (c : EvidenceChain)
    {l : List EvidenceChain} (hl : l.Pairwise chainGE) :
    (insertChainDesc c l).filter (fun x => decide (x.total_weight = w)) =
      l.filter (fun x => decide (x.total_weight = w)) ++
        (if c.total_weight = w then [c] else []) := by
  induction l with
  | nil =>
    by_cases hc : c.total_weight = w <;>
      simp [insertChainDesc, List.filter_cons, hc]
  | cons x xs ih =>
    rw [List.pairwise_cons] at hl
    obtain ⟨hx, hxs⟩ := hl
    by_cases h : x.total_weight < c.total_weight
    · rw [show insertChainDesc c (x :: xs) = c :: x :: xs from by
        simp only [insertChainDesc]; rw [if_pos h]]
      by_cases hc : c.total_weight = w
      · have hnil : (x :: xs).filter (fun y => decide (y.total_weight = w)) = [] := by
          rw [List.filter_eq_nil_iff]
          intro y hy
          simp only [decide_eq_true_eq]
          intro hyw
          rcases List.mem_cons.mp hy with rfl | hy'
          · exact absurd (hyw.trans hc.symm) (ne_of_lt h)
          · have hxy := hx y hy'
            unfold chainGE at hxy
            rw [hyw, ← hc] at hxy
            exact absurd h (not_lt.mpr hxy)
        rw [List.filter_cons, if_pos (by simpa using hc), hnil]
        simp [hc]
      · rw [List.filter_cons, if_neg (by simpa using hc)]
        simp [hc]
    · rw [show insertChainDesc c (x :: xs) = x :: insertChainDesc c xs from by
        simp only [insertChainDesc]; rw [if_neg h]]
      rw [List.filter_cons, List.filter_cons, ih hxs]
      by_cases hxw : x.total_weight = w <;> simp [hxw]

lemma filter_sortChainsDesc (w : ℚ) (l : List EvidenceChain) :
    (sortChainsDesc l).filter (fun x => decide (x.total_weight = w)) =
      l.filter (fun x => decide (x.total_weight = w)) := by
  unfold sortChainsDesc
  suffices h : ∀ acc : List EvidenceChain, acc.Pairwise chainGE →
      (l.foldl (fun acc c => insertChainDesc c acc) acc).filter
        (fun x => decide (x.total_weight = w)) =
      acc.filter (fun x => decide (x.total_weight = w)) ++
        l.filter (fun x => decide (x.total_weight = w)) by
    simpa using h [] List.Pairwise.nil
  induction l with
  | nil => intro acc hacc; simp
  | cons c cs ih =>
    intro acc hacc
    simp only [List.foldl_cons]
    rw [ih _ (insertChainDesc_sorted c hacc), filter_insertChainDesc w c hacc,
      List.filter_cons]
    by_cases hc : c.total_weight = w <;> simp [hc]

lemma build_evidence_chain_suspect (suspect : Company)
    (spatial_score : ℚ) (spatial_details : List ProximityDetail)
    (temporal_score : ℚ) (temporal_details : List TemporalDetail)
    (sentinel_scores : SentinelScores)
    (density_score : ℚ) (density_explanation : String)
    (sentiment_score : ℚ) (sentiment_explanation : String) :
    (build_evidence_chain suspect spatial_score spatial_details temporal_score
      temporal_details sentinel_scores density_score density_explanation
      sentiment_score sentiment_explanation).suspect = suspect := rfl

-- ============== C8 ==============

/-- C8: for every suspect, the suspect-specific infrastructure subset
is `infrastructure.filter (nodeMatchesSuspect suspect)` — exact string
equality of the suspect's name against the node name or its
operator/company tags; if that subset is non-empty the suspect's
spatial score and details are recomputed from only that subset,
otherwise the spatial score is the AOI-wide score halved (with the
AOI-wide details); the temporal, imagery, density, and sentiment
arguments are the same shared values for every suspect of the run. -/
theorem suspect_attribution_spec (dist : ℚ → ℚ → ℚ → ℚ → ℚ) (cosd : ℚ → ℚ)
    (aoi : ℚ × ℚ × ℚ × ℚ) (hansen : Option HansenStats)
    (glad_alerts radd_alerts fires : List GeoEvent)
    (sentinel : Option SentinelEvidence)
    (infrastructure : List InfrastructureNode)
    (suspects : List Company) (sentiment : Option CombinedSentiment) :
    (correlate_events dist cosd aoi hansen glad_alerts radd_alerts fires
      sentinel infrastructure suspects sentiment).1 =
      sortChainsDesc (suspects.map (fun suspect =>
        build_evidence_chain suspect
          (if infrastructure.filter (nodeMatchesSuspect suspect) ≠ [] then
            (calculate_spatial_proximity_score dist
              (infrastructure.filter (nodeMatchesSuspect suspect))
              (glad_alerts ++ radd_alerts ++ fires)).1
          else
            (calculate_spatial_proximity_score dist infrastructure
              (glad_alerts ++ radd_alerts ++ fires)).1 * 0.5)
          (if infrastructure.filter (nodeMatchesSuspect suspect) ≠ [] then
            (calculate_spatial_proximity_score dist
              (infrastructure.filter (nodeMatchesSuspect suspect))
              (glad_alerts ++ radd_alerts ++ fires)).2
          else
            (calculate_spatial_proximity_score dist infrastructure
              (glad_alerts ++ radd_alerts ++ fires)).2)
          (calculate_temporal_correlation_score fires
            (glad_alerts ++ radd_alerts)).1
          (calculate_temporal_correlation_score fires
            (glad_alerts ++ radd_alerts)).2
          (calculate_sentinel_scores sentinel)
          (calculate_alert_density_score cosd glad_alerts radd_alerts fires aoi).1
          (calculate_alert_density_score cosd glad_alerts radd_alerts fires aoi).2
          (calculate_sentiment_score sentiment).1
          (calculate_sentiment_score sentiment).2)) := by
  unfold correlate_events
  dsimp only
  rw [evidenceChainsFor_eq_map]
  congr 1
  apply List.map_congr_left
  intro suspect _
  unfold suspectSpatial
  by_cases h : infrastructure.filter (nodeMatchesSuspect suspect) ≠ []
  · rw [if_pos h, if_pos h, if_pos h]
  · rw [if_neg h, if_neg h, if_neg h]

-- ============== C9 ==============

/-- The per-suspect evidence chains of one run in input suspect order,
built from the shared (AOI-wide) scores exactly as `correlate_events`
builds them before sorting. -/
def preSortChains (dist : ℚ → ℚ → ℚ → ℚ → ℚ) (cosd : ℚ → ℚ)
    (aoi : ℚ × ℚ × ℚ × ℚ)
    (glad_alerts radd_alerts fires : List GeoEvent)
    (sentinel : Option SentinelEvidence)
    (infrastructure : List InfrastructureNode)
    (suspects : List Company) (sentiment : Option CombinedSentiment) :
    List EvidenceChain :=
  evidenceChainsFor dist infrastructure (glad_alerts ++ radd_alerts ++ fires)
    (calculate_spatial_proximity_score dist infrastructure
      (glad_alerts ++ radd_alerts ++ fires)).1
    (calculate_spatial_proximity_score dist infrastructure
      (glad_alerts ++ radd_alerts ++ fires)).2
    (calculate_temporal_correlation_score fires (glad_alerts ++ radd_alerts)).1
    (calculate_temporal_correlation_score fires (glad_alerts ++ radd_alerts)).2
    (calculate_sentinel_scores sentinel)
    (calculate_alert_density_score cosd glad_alerts radd_alerts fires aoi).1
    (calculate_alert_density_score cosd glad_alerts radd_alerts fires aoi).2
    (calculate_sentiment_score sentiment).1
    (calculate_sentiment_score sentiment).2
    suspects

/-- C9: the evidence chains returned by `correlate_events` are sorted
by descending `total_weight` and are a permutation of the per-suspect
chains built in input order (whose suspects are exactly the input
suspect list, in order); for every weight value the chains carrying
that weight appear in the same relative order as in the input —
the stable deterministic tie-break. -/
theorem ranking_spec (dist : ℚ → ℚ → ℚ → ℚ → ℚ) (cosd : ℚ → ℚ)
    (aoi : ℚ × ℚ × ℚ × ℚ) (hansen : Option HansenStats)
    (glad_alerts radd_alerts fires : List GeoEvent)
    (sentinel : Option SentinelEvidence)
    (infrastructure : List InfrastructureNode)
    (suspects : List Company) (sentiment : Option CombinedSentiment) :
    (correlate_events dist cosd aoi hansen glad_alerts
      radd_alerts fires sentinel infrastructure suspects sentiment).1.Pairwise
        chainGE ∧
    (correlate_events dist cosd aoi hansen glad_alerts
      radd_alerts fires sentinel infrastructure suspects sentiment).1.Perm
        (preSortChains dist cosd aoi glad_alerts radd_alerts fires sentinel
          infrastructure suspects sentiment) ∧
    (∀ w : ℚ,
      (correlate_events dist cosd aoi hansen glad_alerts radd_alerts fires
        sentinel infrastructure suspects sentiment).1.filter
          (fun c => decide (c.total_weight = w)) =
      (preSortChains dist cosd aoi glad_alerts radd_alerts fires sentinel
        infrastructure suspects sentiment).filter
          (fun c => decide (c.total_weight = w))) ∧
    (preSortChains dist cosd aoi glad_alerts radd_alerts fires sentinel
      infrastructure suspects sentiment).map (·.suspect) = suspects := by
  have hr : (correlate_events dist cosd aoi hansen glad_alerts
      radd_alerts fires sentinel infrastructure suspects sentiment).1 =
      sortChainsDesc (preSortChains dist cosd aoi glad_alerts radd_alerts fires
        sentinel infrastructure suspects sentiment) := rfl
  refine ⟨hr ▸ sortChainsDesc_sorted _, hr ▸ sortChainsDesc_perm _,
    fun w => hr ▸ filter_sortChainsDesc w _, ?_⟩
  unfold preSortChains
  rw [evidenceChainsFor_eq_map, List.map_map]
  exact (List.map_congr_left (fun s _ => rfl)).trans (List.map_id suspects)

-- ============== C10 ==============

lemma WEIGHTS_values :
    WEIGHTS "spatial_proximity" = 0.25 ∧ WEIGHTS "temporal_correlation" = 0.20 ∧
    WEIGHTS "sentinel_ndvi" = 0.15 ∧ WEIGHTS "sentinel_nbr" = 0.10 ∧
    WEIGHTS "sentinel_burn" = 0.10 ∧ WEIGHTS "alert_density" = 0.10 ∧
    WEIGHTS "sentiment_negative" = 0.10 := by
  refine ⟨?_, ?_, ?_, ?_, ?_, ?_, ?_⟩ <;> simp [WEIGHTS]

set_option maxHeartbeats 4000000 in
/-- C10: when every category score lies in [0, 1], the chain built by
`build_evidence_chain` has `total_weight` in [0, 1]: each emitted link
weighs its category score times the fixed category weight, the seven
category weights sum to 1, and the 3-decimal-rounded sum of emitted
link weights never exceeds 1 (nor drops below 0). -/
theorem evidence_chain_total_weight_bounded (suspect : Company)
    (spatial_score : ℚ) (spatial_details : List ProximityDetail)
    (temporal_score : ℚ) (temporal_details : List TemporalDetail)
    (sentinel_scores : SentinelScores)
    (density_score : ℚ) (density_explanation : String)
    (sentiment_score : ℚ) (sentiment_explanation : String)
    (hsp : 0 ≤ spatial_score ∧ spatial_score ≤ 1)
    (htc : 0 ≤ temporal_score ∧ temporal_score ≤ 1)
    (hnd : 0 ≤ sentinel_scores.ndvi.1 ∧ sentinel_scores.ndvi.1 ≤ 1)
    (hnb : 0 ≤ sentinel_scores.nbr.1 ∧ sentinel_scores.nbr.1 ≤ 1)
    (hbu : 0 ≤ sentinel_scores.burn.1 ∧ sentinel_scores.burn.1 ≤ 1)
    (hde : 0 ≤ density_score ∧ density_score ≤ 1)
    (hse : 0 ≤ sentiment_score ∧ sentiment_score ≤ 1) :
    WEIGHTS "spatial_proximity" + WEIGHTS "temporal_correlation" +
      WEIGHTS "sentinel_ndvi" + WEIGHTS "sentinel_nbr" +
      WEIGHTS "sentinel_burn" + WEIGHTS "alert_density" +
      WEIGHTS "sentiment_negative" = 1 ∧
    0 ≤ (build_evidence_chain suspect spatial_score spatial_details
      temporal_score temporal_details sentinel_scores density_score
      density_explanation sentiment_score sentiment_explanation).total_weight ∧
    (build_evidence_chain suspect spatial_score spatial_details
      temporal_score temporal_details sentinel_scores density_score
      density_explanation sentiment_score sentiment_explanation).total_weight
      ≤ 1 := by
  obtain ⟨w1, w2, w3, w4, w5, w6, w7⟩ := WEIGHTS_values
  refine ⟨by rw [w1, w2, w3, w4, w5, w6, w7]; norm_num, ?_, ?_⟩
  · -- lower bound
    unfold build_evidence_chain
    dsimp only
    simp only [List.map_append, List.sum_append,
      apply_ite (List.map (fun l : EvidenceLink => l.weight)),
      apply_ite List.sum, List.map_cons, List.map_nil, List.sum_cons,
      List.sum_nil, add_zero, w1, w2, w3, w4, w5, w6, w7]
    have b1 : 0 ≤ (if spatial_score > 0 then spatial_score * 0.25 else 0) ∧
        (if spatial_score > 0 then spatial_score * 0.25 else 0) ≤ 0.25 := by
      split_ifs <;> constructor <;> linarith [hsp.1, hsp.2]
    have b2 : 0 ≤ (if temporal_score > 0 then temporal_score * 0.20 else 0) ∧
        (if temporal_score > 0 then temporal_score * 0.20 else 0) ≤ 0.20 := by
      split_ifs <;> constructor <;> linarith [htc.1, htc.2]
    have b3 : 0 ≤ (if sentinel_scores.ndvi.1 > 0 then
          sentinel_scores.ndvi.1 * 0.15 else 0) ∧
        (if sentinel_scores.ndvi.1 > 0 then
          sentinel_scores.ndvi.1 * 0.15 else 0) ≤ 0.15 := by
      split_ifs <;> constructor <;> linarith [hnd.1, hnd.2]
    have b4 : 0 ≤ (if sentinel_scores.nbr.1 > 0 then
          sentinel_scores.nbr.1 * 0.10 else 0) ∧
        (if sentinel_scores.nbr.1 > 0 then
          sentinel_scores.nbr.1 * 0.10 else 0) ≤ 0.10 := by
      split_ifs <;> constructor <;> linarith [hnb.1, hnb.2]
    have b5 : 0 ≤ (if sentinel_scores.burn.1 > 0 then
          sentinel_scores.burn.1 * 0.10 else 0) ∧
        (if sentinel_scores.burn.1 > 0 then
          sentinel_scores.burn.1 * 0.10 else 0) ≤ 0.10 := by
      split_ifs <;> constructor <;> linarith [hbu.1, hbu.2]
    have b6 : 0 ≤ (if density_score > 0 then density_score * 0.10 else 0) ∧
        (if density_score > 0 then density_score * 0.10 else 0) ≤ 0.10 := by
      split_ifs <;> constructor <;> linarith [hde.1, hde.2]
    have b7 : 0 ≤ (if sentiment_score > 0 then sentiment_score * 0.10 else 0) ∧
        (if sentiment_score > 0 then sentiment_score * 0.10 else 0) ≤ 0.10 := by
      split_ifs <;> constructor <;> linarith [hse.1, hse.2]
    exact pyRound_nonneg 3 (by
      linarith [b1.1, b2.1, b3.1, b4.1, b5.1, b6.1, b7.1])
  · -- upper bound
    unfold build_evidence_chain
    dsimp only
    simp only [List.map_append, List.sum_append,
      apply_ite (List.map (fun l : EvidenceLink => l.weight)),
      apply_ite List.sum, List.map_cons, List.map_nil, List.sum_cons,
      List.sum_nil, add_zero, w1, w2, w3, w4, w5, w6, w7]
    have b1 : 0 ≤ (if spatial_score > 0 then spatial_score * 0.25 else 0) ∧
        (if spatial_score > 0 then spatial_score * 0.25 else 0) ≤ 0.25 := by
      split_ifs <;> constructor <;> linarith [hsp.1, hsp.2]
    have b2 : 0 ≤ (if temporal_score > 0 then temporal_score * 0.20 else 0) ∧
        (if temporal_score > 0 then temporal_score * 0.20 else 0) ≤ 0.20 := by
      split_ifs <;> constructor <;> linarith [htc.1, htc.2]
    have b3 : 0 ≤ (if sentinel_scores.ndvi.1 > 0 then
          sentinel_scores.ndvi.1 * 0.15 else 0) ∧
        (if sentinel_scores.ndvi.1 > 0 then
          sentinel_scores.ndvi.1 * 0.15 else 0) ≤ 0.15 := by
      split_ifs <;> constructor <;> linarith [hnd.1, hnd.2]
    have b4 : 0 ≤ (if sentinel_scores.nbr.1 > 0 then
          sentinel_scores.nbr.1 * 0.10 else 0) ∧
        (if sentinel_scores.nbr.1 > 0 then
          sentinel_scores.nbr.1 * 0.10 else 0) ≤ 0.10 := by
      split_ifs <;> constructor <;> linarith [hnb.1, hnb.2]
    have b5 : 0 ≤ (if sentinel_scores.burn.1 > 0 then
          sentinel_scores.burn.1 * 0.10 else 0) ∧
        (if sentinel_scores.burn.1 > 0 then
          sentinel_scores.burn.1 * 0.10 else 0) ≤ 0.10 := by
      split_ifs <;> constructor <;> linarith [hbu.1, hbu.2]
    have b6 : 0 ≤ (if density_score > 0 then density_score * 0.10 else 0) ∧
        (if density_score > 0 then density_score * 0.10 else 0) ≤ 0.10 := by
      split_ifs <;> constructor <;> linarith [hde.1, hde.2]
    have b7 : 0 ≤ (if sentiment_score > 0 then sentiment_score * 0.10 else 0) ∧
        (if sentiment_score > 0 then sentiment_score * 0.10 else 0) ≤ 0.10 := by
      split_ifs <;> constructor <;> linarith [hse.1, hse.2]
    exact pyRound_le_one _ 3 (by
      linarith [b1.2, b2.2, b3.2, b4.2, b5.2, b6.2, b7.2])

/-- Witness for C10 with every category score equal to 1. -/
theorem evidence_chain_total_weight_bounded_witness :
    0 ≤ (build_evidence_chain { name := "Acme" } 1 [] 1 []
      { ndvi := (1, ""), nbr := (1, ""), burn := (1, "") }
      1 "" 1 "").total_weight ∧
    (build_evidence_chain { name := "Acme" } 1 [] 1 []
      { ndvi := (1, ""), nbr := (1, ""), burn := (1, "") }
      1 "" 1 "").total_weight ≤ 1 := by
  have h := evidence_chain_total_weight_bounded { name := "Acme" } 1 [] 1 []
    { ndvi := (1, ""), nbr := (1, ""), burn := (1, "") } 1 "" 1 ""
    (by norm_num) (by norm_num) (by norm_num) (by norm_num) (by norm_num)
    (by norm_num) (by norm_num)
  exact ⟨h.2.1, h.2.2⟩

-- ============== C2 ==============

/-- A Phase-1 task failed: it raised, or returned a dict with a truthy
`error` value (sources without a geographic-skip branch). -/
def fetchFailed {α : Type} : FetchOutcome α → Prop
  | .raised _ _ => True
  | .returned _ error _ _ => errTruthy error = true

/-- A skippable Phase-1 task failed: it raised, or returned a
non-skipped dict with a truthy `error` value (a geographic skip is a
CoverageNote, not a failure). -/
def skippableFetchFailed {α : Type} : FetchOutcome α → Prop
  | .raised _ _ => True
  | .returned _ error skipped _ => skipped = false ∧ errTruthy error = true

lemma processOptional_failed {α : Type} (source : String)
    (o : FetchOutcome α) (now : ℤ) (h : fetchFailed o) :
    (processOptional source o now).1 = none ∧
    (processOptional source o now).2.map (·.source) = [source] := by
  cases o with
  | raised t m => exact ⟨rfl, rfl⟩
  | returned data error skipped skipReason =>
    unfold fetchFailed at h
    dsimp only at h
    unfold processOptional
    dsimp only
    rw [if_pos h]
    exact ⟨rfl, rfl⟩

lemma processList_failed {α : Type} (source : String)
    (o : FetchOutcome (List α)) (now : ℤ) (h : fetchFailed o) :
    (processList source o now).1 = [] ∧
    (processList source o now).2.map (·.source) = [source] := by
  cases o with
  | raised t m => exact ⟨rfl, rfl⟩
  | returned data error skipped skipReason =>
    unfold fetchFailed at h
    dsimp only at h
    unfold processList
    dsimp only
    rw [if_pos h]
    exact ⟨rfl, rfl⟩

lemma processSkippable_failed {α : Type} (source : String)
    (o : FetchOutcome (List α)) (now : ℤ) (h : skippableFetchFailed o) :
    (processSkippable source o now).1 = [] ∧
    (processSkippable source o now).2.1.map (·.source) = [source] := by
  cases o with
  | raised t m => exact ⟨rfl, rfl⟩
  | returned data error skipped skipReason =>
    unfold skippableFetchFailed at h
    dsimp only at h
    unfold processSkippable
    dsimp only
    rw [show skipped = false from h.1]
    rw [if_neg (by simp), if_pos h.2]
    exact ⟨rfl, rfl⟩

/-- C2: dossier generation completes for every combination of
collaborator outcomes (data, skip, error value, or raised exception);
the request as a whole fails exactly when the caller's AOI fails to
resolve, never because a collaborator failed; each failing collaborator
contributes a `SourceError` tagged with its source name while its
signal is treated as absent (`none` or the empty list); company
enrichment failure and sentiment failure likewise only add tagged
errors, leaving suspects empty / sentiment `none`. -/
theorem orchestrator_isolates_failures (dist : ℚ → ℚ → ℚ → ℚ → ℚ)
    (cosd : ℚ → ℚ) (region : Option String)
    (aoiRes : Except String (ℚ × ℚ × ℚ × ℚ)) (start_dt end_dt : ℤ)
    (hansenO : FetchOutcome HansenStats)
    (firmsO : FetchOutcome (List GeoEvent))
    (gladO raddO : FetchOutcome (List GeoEvent))
    (sentinelO : FetchOutcome SentinelEvidence)
    (infraO : FetchOutcome (List InfrastructureNode))
    (enrichO : EnrichOutcome) (sentO : SentimentOutcome) (now : ℤ) :
    (∀ e, get_dossier dist cosd aoiRes region start_dt end_dt hansenO firmsO
      gladO raddO sentinelO infraO enrichO sentO now = Except.error e ↔
      aoiRes = Except.error e) ∧
    (∀ aoi, aoiRes = Except.ok aoi → ∀ d,
      d = assembleDossier dist cosd region aoi start_dt end_dt hansenO firmsO
        gladO raddO sentinelO infraO enrichO sentO now →
      get_dossier dist cosd aoiRes region start_dt end_dt hansenO firmsO
        gladO raddO sentinelO infraO enrichO sentO now = Except.ok d ∧
      (fetchFailed hansenO →
        "hansen_gfc" ∈ d.source_errors.map (·.source) ∧ d.hansen = none) ∧
      (fetchFailed firmsO →
        "firms" ∈ d.source_errors.map (·.source) ∧ d.firms = []) ∧
      (skippableFetchFailed gladO →
        "gfw_glad" ∈ d.source_errors.map (·.source) ∧ d.gfw_glad = []) ∧
      (skippableFetchFailed raddO →
        "gfw_radd" ∈ d.source_errors.map (·.source) ∧ d.gfw_radd = []) ∧
      (fetchFailed sentinelO →
        "sentinel_hub" ∈ d.source_errors.map (·.source) ∧ d.sentinel = none) ∧
      (fetchFailed infraO →
        "overpass" ∈ d.source_errors.map (·.source) ∧ d.nearby_infra = [] ∧
          d.suspects = []) ∧
      (∀ t m, enrichO = EnrichOutcome.raised t m → d.nearby_infra ≠ [] →
        "gleif" ∈ d.source_errors.map (·.source) ∧ d.suspects = []) ∧
      (∀ t m, sentO = SentimentOutcome.raised t m →
        "sentiment" ∈ d.source_errors.map (·.source) ∧ d.sentiment = none)) := by
  constructor
  · intro e
    cases aoiRes with
    | ok a => simp [get_dossier, Except.map]
    | error s => simp [get_dossier, Except.map]
  · intro aoi haoi d hd
    subst haoi
    subst hd
    refine ⟨rfl, ?_, ?_, ?_, ?_, ?_, ?_, ?_, ?_⟩
    · intro hf
      obtain ⟨h1, h2⟩ := processOptional_failed "hansen_gfc" hansenO now hf
      constructor
      · unfold assembleDossier
        dsimp only
        simp [List.map_append, h2]
      · unfold assembleDossier
        dsimp only
        exact h1
    · intro hf
      obtain ⟨h1, h2⟩ := processList_failed "firms" firmsO now hf
      constructor
      · unfold assembleDossier
        dsimp only
        simp [List.map_append, h2]
      · unfold assembleDossier
        dsimp only
        exact h1
    · intro hf
      obtain ⟨h1, h2⟩ := processSkippable_failed "gfw_glad" gladO now hf
      constructor
      · unfold assembleDossier
        dsimp only
        simp [List.map_append, h2]
      · unfold assembleDossier
        dsimp only
        exact h1
    · intro hf
      obtain ⟨h1, h2⟩ := processSkippable_failed "gfw_radd" raddO now hf
      constructor
      · unfold assembleDossier
        dsimp only
        simp [List.map_append, h2]
      · unfold assembleDossier
        dsimp only
        exact h1
    · intro hf
      obtain ⟨h1, h2⟩ := processOptional_failed "sentinel_hub" sentinelO now hf
      constructor
      · unfold assembleDossier
        dsimp only
        simp [List.map_append, h2]
      · unfold assembleDossier
        dsimp only
        exact h1
    · intro hf
      obtain ⟨h1, h2⟩ := processList_failed "overpass" infraO now hf
      refine ⟨?_, ?_, ?_⟩
      · unfold assembleDossier
        dsimp only
        simp [List.map_append, h2]
      · unfold assembleDossier
        dsimp only
        exact h1
      · unfold assembleDossier
        dsimp only
        rw [if_neg (by simp [h1])]
    · intro t m he hne
      subst he
      unfold assembleDossier at hne ⊢
      dsimp only at hne ⊢
      rw [if_pos hne]
      constructor
      · simp [List.map_append, create_source_error]
      · rfl
    · intro t m hs
      subst hs
      refine ⟨?_, rfl⟩
      unfold assembleDossier
      dsimp only
      simp [List.map_append, create_source_error]

/-- Witness for C2: a run in which every collaborator raises still
produces a dossier whose errors are tagged per source and whose
signals are absent. -/
theorem orchestrator_isolates_failures_witness :
    (get_dossier (fun _ _ _ _ => 0) (fun _ => 1)
      (Except.ok (0, 0, 1, 1)) none 0 0
      (FetchOutcome.raised "RuntimeError" "boom")
      (FetchOutcome.raised "RuntimeError" "boom")
      (FetchOutcome.raised "RuntimeError" "boom")
      (FetchOutcome.raised "RuntimeError" "boom")
      (FetchOutcome.raised "RuntimeError" "boom")
      (FetchOutcome.raised "RuntimeError" "boom")
      (EnrichOutcome.raised "RuntimeError" "boom")
      (SentimentOutcome.raised "RuntimeError" "boom") 0 =
      Except.ok (assembleDossier (fun _ _ _ _ => 0) (fun _ => 1) none
        (0, 0, 1, 1) 0 0
        (FetchOutcome.raised "RuntimeError" "boom")
        (FetchOutcome.raised "RuntimeError" "boom")
        (FetchOutcome.raised "RuntimeError" "boom")
        (FetchOutcome.raised "RuntimeError" "boom")
        (FetchOutcome.raised "RuntimeError" "boom")
        (FetchOutcome.raised "RuntimeError" "boom")
        (EnrichOutcome.raised "RuntimeError" "boom")
        (SentimentOutcome.raised "RuntimeError" "boom") 0)) ∧
    "firms" ∈ (assembleDossier (fun _ _ _ _ => 0) (fun _ => 1) none
        (0, 0, 1, 1) 0 0
        (FetchOutcome.raised "RuntimeError" "boom")
        (FetchOutcome.raised "RuntimeError" "boom")
        (FetchOutcome.raised "RuntimeError" "boom")
        (FetchOutcome.raised "RuntimeError" "boom")
        (FetchOutcome.raised "RuntimeError" "boom")
        (FetchOutcome.raised "RuntimeError" "boom")
        (EnrichOutcome.raised "RuntimeError" "boom")
        (SentimentOutcome.raised "RuntimeError" "boom") 0).source_errors.map
      (·.source) ∧
    (assembleDossier (fun _ _ _ _ => 0) (fun _ => 1) none (0, 0, 1, 1) 0 0
        (FetchOutcome.raised "RuntimeError" "boom")
        (FetchOutcome.raised "RuntimeError" "boom")
        (FetchOutcome.raised "RuntimeError" "boom")
        (FetchOutcome.raised "RuntimeError" "boom")
        (FetchOutcome.raised "RuntimeError" "boom")
        (FetchOutcome.raised "RuntimeError" "boom")
        (EnrichOutcome.raised "RuntimeError" "boom")
        (SentimentOutcome.raised "RuntimeError" "boom") 0).firms = [] := by
  have h := (orchestrator_isolates_failures (fun _ _ _ _ => 0) (fun _ => 1)
    none (Except.ok (0, 0, 1, 1)) 0 0
    (FetchOutcome.raised "RuntimeError" "boom")
    (FetchOutcome.raised "RuntimeError" "boom")
    (FetchOutcome.raised "RuntimeError" "boom")
    (FetchOutcome.raised "RuntimeError" "boom")
    (FetchOutcome.raised "RuntimeError" "boom")
    (FetchOutcome.raised "RuntimeError" "boom")
    (EnrichOutcome.raised "RuntimeError" "boom")
    (SentimentOutcome.raised "RuntimeError" "boom") 0).2
    (0, 0, 1, 1) rfl _ rfl
  exact ⟨h.1, (h.2.2.1 trivial).1, (h.2.2.1 trivial).2⟩

end OsintFusion
